import Mathlib

/-! NSX-T Terraform provider: data-source lookup, import-ID parsing and the DHCP v4
static binding resource.

A shallow embedding of

* `nsxt/data_source_nsxt_policy_spoofguard_profile.go`
* `nsxt/data_source_nsxt_transport_zone.go`
* `nsxt/resource_nsxt_policy_dhcp_v4_static_binding.go`

Go pointers to strings are `Option String` (`none` is `nil`), a nil dereference is the
`Exec.panic` outcome, a Go `error` result is `Option GoError` (`none` is `nil`), and every
call made to the vendored REST client is recorded in a list of `ApiCall`s.
-/

namespace Nsxt

/-! ## Go runtime values -/

/-- A Go `error` value: the text of `Error()` and whether the vendored client typed it as
its not-found error. -/
structure GoError where
  msg : String
  notFound : Bool
  deriving DecidableEq, Repr

/-- The error built by `fmt.Errorf` from an already formatted message. -/
def fmtErrorf (msg : String) : GoError := ⟨msg, false⟩

/-- Outcome of running Go code that may dereference a nil pointer. -/
inductive Exec (α : Type) where
  | ret (a : α)
  | panic
  deriving DecidableEq, Repr

/-- `strings.HasPrefix(s, p)`. -/
def stringsHasPrefix (s p : String) : Bool :=
  p.toList.isPrefixOf s.toList

/-- `strings.Split(s, sep)` for a separator of one character. -/
def stringsSplit (s : String) (sep : Char) : List String :=
  (s.toList.splitOn sep).map String.mk

/-! ## schema.ResourceData -/

/-- An element of a list attribute: an `interface{}` that only helpers of other files look
into, kept as its key/value pairs. -/
structure ListItem where
  fields : List (String × String)
  deriving DecidableEq, Repr

/-- A value stored under a schema attribute. -/
inductive Value where
  | null
  | str (s : String)
  | int (n : Int)
  | list (items : List ListItem)
  deriving DecidableEq, Repr

/-- What `d.Set` stores for a `*string` argument. -/
def Value.ofPtr : Option String → Value
  | none => Value.null
  | some s => Value.str s

/-- Replace the value stored under `k`, or add the key at the end. -/
def setAttr (k : String) (v : Value) : List (String × Value) → List (String × Value)
  | [] => [(k, v)]
  | (k', v') :: rest => if k' = k then (k, v) :: rest else (k', v') :: setAttr k v rest

/-- Value stored under `k`, if any. -/
def getAttr (k : String) : List (String × Value) → Option Value
  | [] => none
  | (k', v') :: rest => if k' = k then some v' else getAttr k rest

/-- The state behind a `*schema.ResourceData`: the resource ID of `d.Id()` / `d.SetId` and
the attributes of `d.Get` / `d.Set`. -/
structure ResourceData where
  id : String
  attrs : List (String × Value)
  deriving DecidableEq, Repr

namespace ResourceData

/-- `d.Id()`. -/
def Id (d : ResourceData) : String := d.id

/-- `d.SetId(v)`: the resource ID becomes `v`, and so does the "id" attribute that
`d.Get("id")` reads back. -/
def SetId (d : ResourceData) (v : String) : ResourceData :=
  { id := v, attrs := setAttr "id" (Value.str v) d.attrs }

/-- `d.Set(k, v)`. -/
def Set (d : ResourceData) (k : String) (v : Value) : ResourceData :=
  { d with attrs := setAttr k v d.attrs }

/-- `d.Get(k).(string)` for an attribute of schema type `TypeString`: the stored string,
and the zero value `""` when nothing is set. -/
def GetString (d : ResourceData) (k : String) : String :=
  match getAttr k d.attrs with
  | some (Value.str s) => s
  | _ => ""

end ResourceData

/-! ## The vendored REST client -/

/-- A `*data.StructValue` handed back by the vendored client, as its fields. -/
structure StructValue where
  fields : List (String × Value)
  deriving DecidableEq, Repr

/-- A call issued to the vendored REST client. -/
inductive ApiCall where
  | spoofguardProfilesGet (id : String)
  | spoofguardProfilesList
  | getTransportZone (id : String)
  | listTransportZones
  | dhcpStaticBindingGet (isGlobalManager : Bool) (segmentID id : String)
  | dhcpStaticBindingPatch (isGlobalManager : Bool) (segmentID id : String) (obj : StructValue)
  | dhcpStaticBindingDelete (isGlobalManager : Bool) (segmentID id : String)
  deriving DecidableEq, Repr

/-- One run of a provider callback on `d`: the REST calls it issued, in order, and either
a panic or the final resource data with the returned `error`. -/
structure Run where
  calls : List ApiCall
  out : Exec (ResourceData × Option GoError)
  deriving DecidableEq, Repr

/-- The fields of `model.SpoofGuardProfile` the data source uses, all `*string`. -/
structure SpoofGuardProfile where
  Id : Option String
  DisplayName : Option String
  Description : Option String
  Path : Option String
  deriving DecidableEq, Repr

/-- The answers of `infra.SpoofguardProfilesClient`: `Get(id)` and
`List(nil, &false, nil, nil, nil, nil)` (its `Results`). -/
structure SpoofguardProfilesClient where
  Get : String → Except GoError SpoofGuardProfile
  List : Except GoError (List SpoofGuardProfile)

/-- The provider meta `m` of the policy data sources: what `isPolicyGlobalManager(m)`
answers and the client built on `getPolicyConnector(m)`. -/
structure PolicyMeta where
  isPolicyGlobalManager : Bool
  spoofguardProfiles : SpoofguardProfilesClient

/-- Provider helpers that the data source calls and that live in other files of the
provider; they are parameters of the embedding. `policyDataSourceResourceRead` receives
the pointer `d`, so its run holds the resource data it leaves behind. -/
structure Helpers where
  policyDataSourceResourceRead : ResourceData → Bool → String → Run
  handleListError : String → GoError → Option GoError

/-- Modelled from the spec: handleDataSourceReadError is defined in another file of the
provider; under the spec's name-vs-ID disambiguation a data source given an id is resolved
by that id alone, so the failed Get is reported from the resource type, the id and the
client's error, and `d` is left as it is. -/
def handleDataSourceReadError (_d : ResourceData) (resourceType resourceID : String)
    (err : GoError) : GoError :=
  ⟨"Failed to read " ++ resourceType ++ " " ++ resourceID ++ ": " ++ err.msg, err.notFound⟩

/-! ## data_source_nsxt_policy_spoofguard_profile.go -/

/-- The `for _, objInList := range objList.Results` loop: carries `perfectMatch` and
`prefixMatch`, dereferencing `objInList.DisplayName` at every element. -/
def spoofGuardMatchLoop (objName : String) :
    List SpoofGuardProfile → List SpoofGuardProfile → List SpoofGuardProfile →
      Exec (List SpoofGuardProfile × List SpoofGuardProfile)
  | [], perfectMatch, prefixMatch => Exec.ret (perfectMatch, prefixMatch)
  | objInList :: rest, perfectMatch, prefixMatch =>
    match objInList.DisplayName with
    | none => Exec.panic
    | some displayName =>
      let prefixMatch1 :=
        if stringsHasPrefix displayName objName then prefixMatch ++ [objInList] else prefixMatch
      let perfectMatch1 :=
        if displayName = objName then perfectMatch ++ [objInList] else perfectMatch
      spoofGuardMatchLoop objName rest perfectMatch1 prefixMatch1

/-- The tail of the read: `d.SetId(*obj.Id)` and the three `d.Set` calls. -/
def spoofGuardWrite (d : ResourceData) (obj : SpoofGuardProfile) :
    Exec (ResourceData × Option GoError) :=
  match obj.Id with
  | none => Exec.panic
  | some id =>
    Exec.ret
      ((((d.SetId id).Set "display_name" (Value.ofPtr obj.DisplayName)).Set "description"
        (Value.ofPtr obj.Description)).Set "path" (Value.ofPtr obj.Path), none)

/-- The choice made after the loop from `perfectMatch` and `prefixMatch`. -/
def spoofGuardResolve (objName : String) (perfectMatch prefixMatch : List SpoofGuardProfile) :
    Except GoError SpoofGuardProfile :=
  match perfectMatch with
  | obj :: more =>
    if more.length + 1 > 1 then
      Except.error (fmtErrorf ("Found multiple SpoofGuardProfiles with name '" ++ objName ++ "'"))
    else Except.ok obj
  | [] =>
    match prefixMatch with
    | obj :: more =>
      if more.length + 1 > 1 then
        Except.error (fmtErrorf
          ("Found multiple SpoofGuardProfiles with name starting with '" ++ objName ++ "'"))
      else Except.ok obj
    | [] =>
      Except.error (fmtErrorf ("SpoofGuardProfile with name '" ++ objName ++ "' was not found"))

/-- `dataSourceNsxtPolicySpoofGuardProfileRead(d, m)`. -/
def dataSourceNsxtPolicySpoofGuardProfileRead (h : Helpers) (d : ResourceData)
    (m : PolicyMeta) : Run :=
  if m.isPolicyGlobalManager then
    h.policyDataSourceResourceRead d true "SpoofGuardProfile"
  else
    let client := m.spoofguardProfiles
    let objID := d.GetString "id"
    let objName := d.GetString "display_name"
    if objID ≠ "" then
      match client.Get objID with
      | Except.error err =>
        ⟨[ApiCall.spoofguardProfilesGet objID],
          Exec.ret (d, some (handleDataSourceReadError d "SpoofguardProfile" objID err))⟩
      | Except.ok objGet =>
        ⟨[ApiCall.spoofguardProfilesGet objID], spoofGuardWrite d objGet⟩
    else if objName = "" then
      ⟨[], Exec.ret (d, some (fmtErrorf "Error obtaining SpoofGuardProfile ID or name during read"))⟩
    else
      match client.List with
      | Except.error err =>
        ⟨[ApiCall.spoofguardProfilesList],
          Exec.ret (d, h.handleListError "SpoofGuardProfiles" err)⟩
      | Except.ok results =>
        match spoofGuardMatchLoop objName results [] [] with
        | Exec.panic => ⟨[ApiCall.spoofguardProfilesList], Exec.panic⟩
        | Exec.ret (perfectMatch, prefixMatch) =>
          match spoofGuardResolve objName perfectMatch prefixMatch with
          | Except.error e => ⟨[ApiCall.spoofguardProfilesList], Exec.ret (d, some e)⟩
          | Except.ok obj => ⟨[ApiCall.spoofguardProfilesList], spoofGuardWrite d obj⟩

/-! ## data_source_nsxt_transport_zone.go -/

/-- The fields of `manager.TransportZone` the data source uses, all plain strings. -/
structure TransportZone where
  Id : String
  DisplayName : String
  Description : String
  HostSwitchName : String
  TransportType : String
  deriving DecidableEq, Repr

/-- The zero value of `var obj manager.TransportZone`. -/
def TransportZone.zero : TransportZone := ⟨"", "", "", "", ""⟩

/-- What `GetTransportZone` hands back: the object, the `*http.Response` (as its
`StatusCode`, `none` for a nil response) and the error. -/
structure GetTransportZoneResult where
  obj : TransportZone
  resp : Option Nat
  err : Option GoError
  deriving DecidableEq, Repr

/-- The answers of `nsxClient.NetworkTransportApi`: `GetTransportZone(ctx, id)` and
`ListTransportZones(ctx, nil)` (its `Results`, the response being discarded). -/
structure NetworkTransportApi where
  GetTransportZone : String → GetTransportZoneResult
  ListTransportZones : Except GoError (List TransportZone)

/-- `http.StatusNotFound`. -/
def httpStatusNotFound : Nat := 404

/-- The `for _, obj_in_list := range obj_list.Results` loop: carries `obj` and `found`
and returns from the read at the second zone whose name starts with `obj_name`. -/
def transportZoneLoop (obj_name : String) :
    List TransportZone → TransportZone → Bool → Except GoError (TransportZone × Bool)
  | [], obj, found => Except.ok (obj, found)
  | obj_in_list :: rest, obj, found =>
    if stringsHasPrefix obj_in_list.DisplayName obj_name then
      if found = true then
        Except.error
          (fmtErrorf ("Found multiple transport zones with name '" ++ obj_name ++ "'\n"))
      else transportZoneLoop obj_name rest obj_in_list true
    else transportZoneLoop obj_name rest obj found

/-- The tail of the read: `d.SetId(obj.Id)` and the four `d.Set` calls. -/
def transportZoneWrite (d : ResourceData) (obj : TransportZone) : ResourceData :=
  ((((d.SetId obj.Id).Set "display_name" (Value.str obj.DisplayName)).Set "description"
    (Value.str obj.Description)).Set "host_switch_name" (Value.str obj.HostSwitchName)).Set
      "transport_type" (Value.str obj.TransportType)

/-- `dataSourceNsxtTransportZoneRead(d, m)` with `m` the `*api.APIClient`. -/
def dataSourceNsxtTransportZoneRead (d : ResourceData) (nsxClient : NetworkTransportApi) : Run :=
  let obj_id := d.GetString "id"
  let obj_name := d.GetString "display_name"
  if obj_id ≠ "" then
    let r := nsxClient.GetTransportZone obj_id
    match r.err with
    | some err =>
      ⟨[ApiCall.getTransportZone obj_id], Exec.ret (d, some (fmtErrorf
        ("Error while reading transport zone " ++ obj_id ++ ": " ++ err.msg ++ "\n")))⟩
    | none =>
      match r.resp with
      | none => ⟨[ApiCall.getTransportZone obj_id], Exec.panic⟩
      | some statusCode =>
        if statusCode = httpStatusNotFound then
          ⟨[ApiCall.getTransportZone obj_id], Exec.ret (d, some (fmtErrorf
            ("Transport zone " ++ obj_id ++ " was not found\n")))⟩
        else
          ⟨[ApiCall.getTransportZone obj_id], Exec.ret (transportZoneWrite d r.obj, none)⟩
  else if obj_name ≠ "" then
    match nsxClient.ListTransportZones with
    | Except.error err =>
      ⟨[ApiCall.listTransportZones], Exec.ret (d, some (fmtErrorf
        ("Error while reading transport zones: " ++ err.msg ++ "\n")))⟩
    | Except.ok results =>
      match transportZoneLoop obj_name results TransportZone.zero false with
      | Except.error e => ⟨[ApiCall.listTransportZones], Exec.ret (d, some e)⟩
      | Except.ok (obj, found) =>
        if found = false then
          ⟨[ApiCall.listTransportZones], Exec.ret (d, some (fmtErrorf
            ("Transport zone '" ++ obj_name ++ "' was not found\n")))⟩
        else ⟨[ApiCall.listTransportZones], Exec.ret (transportZoneWrite d obj, none)⟩
  else
    ⟨[], Exec.ret (d, some (fmtErrorf "Error obtaining transport zone ID or name during read"))⟩

/-! ## resource_nsxt_policy_dhcp_v4_static_binding.go -/

/-- The `Get(segmentID, id)` answers of the two `DhcpStaticBindingConfigsClient`s a
`*client.RestConnector` can be wrapped in: `gm_segments` on a global manager and
`segments` on a local one. -/
structure RestConnector where
  gmSegmentsGet : String → String → Except GoError StructValue
  segmentsGet : String → String → Except GoError StructValue

/-- Modelled from the spec: isNotFoundError is defined in another file of the provider;
"handle not-found as absence" makes it the test for the client's not-found error. -/
def isNotFoundError (err : GoError) : Bool := err.notFound

/-- Modelled from the spec: logAPIError is defined in another file of the provider; it
turns a failed REST call into the error the callback reports, so its result is never
nil. -/
def logAPIError (message : String) (err : GoError) : GoError :=
  ⟨message ++ ": " ++ err.msg, err.notFound⟩

/-- `getPolicyDchpStaticBindingOnSegment(id, segmentID, connector, isGlobalManager)`,
with the call it issues. -/
def getPolicyDchpStaticBindingOnSegment (id segmentID : String) (connector : RestConnector)
    (isGlobalManager : Bool) : List ApiCall × Except GoError StructValue :=
  if isGlobalManager then
    ([ApiCall.dhcpStaticBindingGet true segmentID id], connector.gmSegmentsGet segmentID id)
  else
    ([ApiCall.dhcpStaticBindingGet false segmentID id], connector.segmentsGet segmentID id)

/-- `resourceNsxtPolicyDhcpStaticBindingExistsOnSegment(id, segmentID, connector,
isGlobalManager)`: the `(bool, error)` pair it returns. -/
def resourceNsxtPolicyDhcpStaticBindingExistsOnSegment (id segmentID : String)
    (connector : RestConnector) (isGlobalManager : Bool) : Bool × Option GoError :=
  match (getPolicyDchpStaticBindingOnSegment id segmentID connector isGlobalManager).2 with
  | Except.ok _ => (true, none)
  | Except.error err =>
    if isNotFoundError err then (false, none)
    else (false, some (logAPIError "Error retrieving resource" err))

/-- `nsxtSegmentResourceImporter(d, m)`: the slice it returns holds the one pointer `d`,
so the result is the resource data left behind and the error. -/
def nsxtSegmentResourceImporter (d : ResourceData) (isPolicyGlobalManager : Bool) :
    ResourceData × Option GoError :=
  let importID := d.Id
  let s := stringsSplit importID '/'
  if s.length < 2 then
    (d, some (fmtErrorf
      ("Import format [gatewayID]/segmentID/bindingID expected, got " ++ importID)))
  else
    let (importGW, importSegment, d1) :=
      if s.length = 3 then (s.getD 0 "", s.getD 1 "", d.SetId (s.getD 2 ""))
      else ("", s.getD 0 "", d.SetId (s.getD 1 ""))
    let infra := if isPolicyGlobalManager then "global-infra" else "infra"
    let parentPath :=
      if importGW.length > 0 then "/" ++ infra ++ "/tier-1s/" ++ importGW ++ "/segments"
      else "/" ++ infra ++ "/segments"
    let segmentPath := parentPath ++ "/" ++ importSegment
    (d1.Set "segment_path" (Value.str segmentPath), none)

/-! ## Predicates used to state the lookup properties -/

/-- The listed profile carries exactly the display name `n`. -/
def hasDisplayName (n : String) (p : SpoofGuardProfile) : Bool :=
  decide (p.DisplayName = some n)

/-- The listed profile carries a display name that starts with `n`. -/
def displayNameStartsWith (n : String) (p : SpoofGuardProfile) : Bool :=
  match p.DisplayName with
  | some displayName => stringsHasPrefix displayName n
  | none => false

/-- The `error` a run returned, when it did not panic. -/
def Run.err (r : Run) : Exec (Option GoError) :=
  match r.out with
  | Exec.ret (_, e) => Exec.ret e
  | Exec.panic => Exec.panic

/-! ## Sample inputs -/

/-- Helpers that report a failed call under the resource type and leave `d` alone. -/
def sampleHelpers : Helpers where
  policyDataSourceResourceRead := fun d _ _ => ⟨[], Exec.ret (d, none)⟩
  handleListError := fun resourceType err =>
    some ⟨"Failed to read " ++ resourceType ++ ": " ++ err.msg, err.notFound⟩

/-- A SpoofGuard profile named `displayName` with id `id`. -/
def sampleProfile (id displayName : String) : SpoofGuardProfile :=
  ⟨some id, some displayName, some "", some ("/infra/spoofguard-profiles/" ++ id)⟩

/-- A SpoofGuard profile whose `DisplayName` pointer is nil. -/
def unnamedProfile (id : String) : SpoofGuardProfile :=
  ⟨some id, none, none, some ("/infra/spoofguard-profiles/" ++ id)⟩

/-- A local manager whose list call answers `results` and whose get call looks the id up
in them. -/
def localManager (results : List SpoofGuardProfile) : PolicyMeta where
  isPolicyGlobalManager := false
  spoofguardProfiles :=
    { Get := fun id =>
        match results.find? (fun p => decide (p.Id = some id)) with
        | some p => Except.ok p
        | none => Except.error ⟨"not found", true⟩
      List := Except.ok results }

/-- Resource data of a data source configured by `display_name` only. -/
def byName (n : String) : ResourceData := ⟨"", [("display_name", Value.str n)]⟩

/-- The listed transport zone has a display name that starts with `n`. -/
def zoneNameStartsWith (n : String) (z : TransportZone) : Bool :=
  stringsHasPrefix z.DisplayName n

/-- A transport zone named `displayName` with id `id`. -/
def sampleZone (id displayName : String) : TransportZone :=
  ⟨id, displayName, "", "nsxvswitch", "OVERLAY"⟩

/-- An API client whose list call answers `results` and whose get call looks the id up in
them, answering status 404 when it is absent. -/
def sampleApi (results : List TransportZone) : NetworkTransportApi where
  GetTransportZone := fun id =>
    match results.find? (fun z => decide (z.Id = id)) with
    | some z => ⟨z, some 200, none⟩
    | none => ⟨TransportZone.zero, some 404, none⟩
  ListTransportZones := Except.ok results

/-- A connector on which the local manager holds the binding "bind1" of segment "seg1",
answers a server failure for segment "down" and not-found otherwise, and the global
manager holds nothing. -/
def sampleConnector : RestConnector where
  gmSegmentsGet := fun _ _ => Except.error ⟨"not found", true⟩
  segmentsGet := fun segmentID id =>
    if segmentID = "down" then Except.error ⟨"internal server error", false⟩
    else if segmentID = "seg1" ∧ id = "bind1" then Except.ok ⟨[("id", Value.str "bind1")]⟩
    else Except.error ⟨"not found", true⟩

/-! ## The DHCP v4 static binding resource -/

/-- What `d.Set` stores for a `*int64` argument. -/
def Value.ofIntPtr : Option Int → Value
  | none => Value.null
  | some n => Value.int n

/-- `d.Get(k).(int)` for an attribute of schema type `TypeInt`: the stored number, and
the zero value `0` when nothing is set. -/
def ResourceData.GetInt (d : ResourceData) (k : String) : Int :=
  match getAttr k d.attrs with
  | some (Value.int n) => n
  | _ => 0

/-- `d.Get(k).([]interface{})` for an attribute of schema type `TypeList`: the stored
elements, and the empty slice when nothing is set. -/
def ResourceData.GetList (d : ResourceData) (k : String) : List ListItem :=
  match getAttr k d.attrs with
  | some (Value.list items) => items
  | _ => []

/-- The vendored `model.Tag`. -/
structure Tag where
  Scope : Option String
  Tag : Option String
  deriving DecidableEq, Repr

/-- The vendored `model.DhcpOption121`, as its static routes (network, next hop). -/
structure DhcpOption121 where
  StaticRoutes : List (String × String)
  deriving DecidableEq, Repr

/-- The vendored `model.GenericDhcpOption`. -/
structure GenericDhcpOption where
  Code : Option Int
  Values : List String
  deriving DecidableEq, Repr

/-- The vendored `model.DhcpV4Options`: `Option121` is a pointer, `Others` a slice. -/
structure DhcpV4Options where
  Option121 : Option DhcpOption121
  Others : List GenericDhcpOption
  deriving DecidableEq, Repr

/-- The fields of the vendored `model.DhcpV4StaticBindingConfig` the resource uses. -/
structure DhcpV4StaticBindingConfig where
  DisplayName : Option String
  Description : Option String
  Tags : List Tag
  Path : Option String
  Revision : Option Int
  GatewayAddress : Option String
  HostName : Option String
  IpAddress : Option String
  LeaseTime : Option Int
  MacAddress : Option String
  Options : Option DhcpV4Options
  ResourceType : String
  deriving DecidableEq, Repr

/-- The platform behind the two `DhcpStaticBindingConfigsClient`s. Every answer may depend
on the calls issued before it (the first argument); the flag tells the `gm_segments`
client (global manager) from the `segments` client. -/
structure DhcpStaticBindingServer where
  Get : List ApiCall → Bool → String → String → Except GoError StructValue
  Patch : List ApiCall → Bool → String → String → StructValue → Option GoError
  Delete : List ApiCall → Bool → String → String → Option GoError

/-- The provider meta `m` of the binding resource: what `isPolicyGlobalManager(m)` answers
and the platform reached through `getPolicyConnector(m)`. -/
structure BindingMeta where
  isPolicyGlobalManager : Bool
  server : DhcpStaticBindingServer

/-- The connector as `resourceNsxtPolicyDhcpStaticBindingExistsOnSegment` sees it after
the calls `log`. -/
def BindingMeta.connector (m : BindingMeta) (log : List ApiCall) : RestConnector where
  gmSegmentsGet := m.server.Get log true
  segmentsGet := m.server.Get log false

/-- What `getOrGenerateID` hands back: the id, the error, and the calls it issued. -/
structure GeneratedID where
  calls : List ApiCall
  id : String
  err : Option GoError
  deriving DecidableEq, Repr

/-- Helpers of other files of the provider and the vendored type converter, as parameters
of the embedding. The `get...` helpers only read `d`; `setPolicyTagsInSchema` and
`handleReadError` receive the pointer `d` and return the resource data they leave
behind. `getOrGenerateID` is given the calls issued so far. -/
structure BindingHelpers where
  getPolicyIDFromPath : String → String
  getPolicyTagsFromSchema : ResourceData → List Tag
  setPolicyTagsInSchema : ResourceData → List Tag → ResourceData
  getPolicyDhcpOptions121 : List ListItem → DhcpOption121
  getPolicyDhcpGenericOptions : List ListItem → List GenericDhcpOption
  getPolicyDhcpOptions121FromStruct : DhcpOption121 → List ListItem
  getPolicyDhcpGenericOptionsFromStruct : List GenericDhcpOption → List ListItem
  getOrGenerateID : ResourceData → BindingMeta →
    (String → RestConnector → Bool → Bool × Option GoError) → List ApiCall → GeneratedID
  convertToVapi : Bool → DhcpV4StaticBindingConfig → Except GoError StructValue
  convertToGolang : StructValue → Except GoError DhcpV4StaticBindingConfig
  handleCreateError : String → String → GoError → Option GoError
  handleReadError : ResourceData → String → String → GoError → ResourceData × Option GoError
  handleUpdateError : String → String → GoError → Option GoError
  handleDeleteError : String → String → GoError → Option GoError

/-- `resourceNsxtPolicyDhcpStaticBindingExists(segmentID)`: the closure handed to
`getOrGenerateID`. -/
def resourceNsxtPolicyDhcpStaticBindingExists (segmentID : String) :
    String → RestConnector → Bool → Bool × Option GoError :=
  fun id connector isGlobalManager =>
    resourceNsxtPolicyDhcpStaticBindingExistsOnSegment id segmentID connector isGlobalManager

/-- `getDhcpOptsFromSchema(d)`; `none` is the nil pointer. -/
def getDhcpOptsFromSchema (h : BindingHelpers) (d : ResourceData) : Option DhcpV4Options :=
  let dhcp121Opts := d.GetList "dhcp_option_121"
  let option121 : Option DhcpOption121 :=
    if dhcp121Opts.length > 0 then some (h.getPolicyDhcpOptions121 dhcp121Opts) else none
  let otherDhcpOpts := d.GetList "dhcp_generic_option"
  let others : List GenericDhcpOption :=
    if otherDhcpOpts.length > 0 then h.getPolicyDhcpGenericOptions otherDhcpOpts else []
  if dhcp121Opts.length + otherDhcpOpts.length > 0 then
    some { Option121 := option121, Others := others }
  else none

/-- The object `policyDhcpV4StaticBindingConvertAndPatch` builds from the schema before it
converts and sends it: the struct literal and the `len(gatewayAddress) > 0` assignment. -/
def dhcpV4StaticBindingConfigFromSchema (h : BindingHelpers) (d : ResourceData) :
    DhcpV4StaticBindingConfig :=
  let displayName := d.GetString "display_name"
  let description := d.GetString "description"
  let tags := h.getPolicyTagsFromSchema d
  let gatewayAddress := d.GetString "gateway_address"
  let hostName := d.GetString "hostname"
  let ipAddress := d.GetString "ip_address"
  let leaseTime := d.GetInt "lease_time"
  let macAddress := d.GetString "mac_address"
  let dhcpOptions := getDhcpOptsFromSchema h d
  let obj : DhcpV4StaticBindingConfig :=
    { DisplayName := some displayName
      Description := some description
      Tags := tags
      Path := none
      Revision := none
      GatewayAddress := none
      HostName := some hostName
      IpAddress := some ipAddress
      LeaseTime := some leaseTime
      MacAddress := some macAddress
      Options := dhcpOptions
      ResourceType := "DhcpV4StaticBindingConfig" }
  if gatewayAddress.length > 0 then { obj with GatewayAddress := some gatewayAddress } else obj

/-- `policyDhcpV4StaticBindingConvertAndPatch(d, segmentID, id, m)` run after the calls
`log`: the calls issued up to its return and the error it returns. -/
def policyDhcpV4StaticBindingConvertAndPatch (h : BindingHelpers) (d : ResourceData)
    (segmentID id : String) (m : BindingMeta) (log : List ApiCall) :
    List ApiCall × Option GoError :=
  let obj := dhcpV4StaticBindingConfigFromSchema h d
  match h.convertToVapi m.isPolicyGlobalManager obj with
  | Except.error convErr => (log, some convErr)
  | Except.ok convObj =>
    (log ++ [ApiCall.dhcpStaticBindingPatch m.isPolicyGlobalManager segmentID id convObj],
      m.server.Patch log m.isPolicyGlobalManager segmentID id convObj)

/-- The `d.Set` calls at the end of the read, for the converted object `obj`. -/
def dhcpV4StaticBindingWrite (h : BindingHelpers) (d : ResourceData) (id : String)
    (obj : DhcpV4StaticBindingConfig) : ResourceData :=
  let d1 := (d.Set "display_name" (Value.ofPtr obj.DisplayName)).Set "description"
    (Value.ofPtr obj.Description)
  let d2 := h.setPolicyTagsInSchema d1 obj.Tags
  let d3 := ((d2.Set "nsx_id" (Value.str id)).Set "path" (Value.ofPtr obj.Path)).Set "revision"
    (Value.ofIntPtr obj.Revision)
  let d4 := ((((d3.Set "gateway_address" (Value.ofPtr obj.GatewayAddress)).Set "hostname"
    (Value.ofPtr obj.HostName)).Set "ip_address" (Value.ofPtr obj.IpAddress)).Set "lease_time"
    (Value.ofIntPtr obj.LeaseTime)).Set "mac_address" (Value.ofPtr obj.MacAddress)
  match obj.Options with
  | none => d4
  | some options =>
    let d5 :=
      match options.Option121 with
      | some option121 =>
        d4.Set "dhcp_option_121" (Value.list (h.getPolicyDhcpOptions121FromStruct option121))
      | none => d4
    if options.Others.length > 0 then
      d5.Set "dhcp_generic_option"
        (Value.list (h.getPolicyDhcpGenericOptionsFromStruct options.Others))
    else d5

/-- `resourceNsxtPolicyDhcpV4StaticBindingRead(d, m)` run after the calls `log`. -/
def resourceNsxtPolicyDhcpV4StaticBindingRead (h : BindingHelpers) (d : ResourceData)
    (m : BindingMeta) (log : List ApiCall) : Run :=
  let id := d.Id
  if id = "" then
    ⟨log, Exec.ret (d, some (fmtErrorf "Error obtaining DhcpV4StaticBindingConfig ID"))⟩
  else
    let segmentPath := d.GetString "segment_path"
    let segmentID := h.getPolicyIDFromPath segmentPath
    let log1 := log ++ [ApiCall.dhcpStaticBindingGet m.isPolicyGlobalManager segmentID id]
    match m.server.Get log m.isPolicyGlobalManager segmentID id with
    | Except.error err =>
      ⟨log1, Exec.ret (h.handleReadError d "DhcpV4StaticBindingConfig" id err)⟩
    | Except.ok dhcpObj =>
      match h.convertToGolang dhcpObj with
      | Except.error convErr => ⟨log1, Exec.ret (d, some convErr)⟩
      | Except.ok obj =>
        if obj.ResourceType ≠ "DhcpV4StaticBindingConfig" then
          ⟨log1, Exec.ret (h.handleReadError d "DhcpV4StaticBindingConfig" id
            (fmtErrorf "Unexpected ResourceType"))⟩
        else ⟨log1, Exec.ret (dhcpV4StaticBindingWrite h d id obj, none)⟩

/-- `resourceNsxtPolicyDhcpV4StaticBindingCreate(d, m)` run after the calls `log`. -/
def resourceNsxtPolicyDhcpV4StaticBindingCreate (h : BindingHelpers) (d : ResourceData)
    (m : BindingMeta) (log : List ApiCall) : Run :=
  let segmentPath := d.GetString "segment_path"
  let segmentID := h.getPolicyIDFromPath segmentPath
  let generated :=
    h.getOrGenerateID d m (resourceNsxtPolicyDhcpStaticBindingExists segmentID) log
  let log1 := log ++ generated.calls
  match generated.err with
  | some err => ⟨log1, Exec.ret (d, some err)⟩
  | none =>
    let id := generated.id
    let patched := policyDhcpV4StaticBindingConvertAndPatch h d segmentID id m log1
    match patched.2 with
    | some err =>
      ⟨patched.1, Exec.ret (d, h.handleCreateError "DhcpV4StaticBindingConfig" id err)⟩
    | none =>
      resourceNsxtPolicyDhcpV4StaticBindingRead h ((d.SetId id).Set "nsx_id" (Value.str id)) m
        patched.1

/-- `resourceNsxtPolicyDhcpV4StaticBindingUpdate(d, m)` run after the calls `log`. -/
def resourceNsxtPolicyDhcpV4StaticBindingUpdate (h : BindingHelpers) (d : ResourceData)
    (m : BindingMeta) (log : List ApiCall) : Run :=
  let id := d.Id
  if id = "" then
    ⟨log, Exec.ret (d, some (fmtErrorf "Error obtaining DhcpV4StaticBindingConfig ID"))⟩
  else
    let segmentPath := d.GetString "segment_path"
    let segmentID := h.getPolicyIDFromPath segmentPath
    let patched := policyDhcpV4StaticBindingConvertAndPatch h d segmentID id m log
    match patched.2 with
    | some err =>
      ⟨patched.1, Exec.ret (d, h.handleUpdateError "DhcpV4StaticBindingConfig" id err)⟩
    | none => resourceNsxtPolicyDhcpV4StaticBindingRead h d m patched.1

/-- `resourceNsxtPolicyDhcpV4StaticBindingDelete(d, m)` run after the calls `log`. -/
def resourceNsxtPolicyDhcpV4StaticBindingDelete (h : BindingHelpers) (d : ResourceData)
    (m : BindingMeta) (log : List ApiCall) : Run :=
  let id := d.Id
  if id = "" then
    ⟨log, Exec.ret (d, some (fmtErrorf "Error obtaining DhcpV4StaticBindingConfig ID"))⟩
  else
    let segmentPath := d.GetString "segment_path"
    let segmentID := h.getPolicyIDFromPath segmentPath
    let log1 := log ++ [ApiCall.dhcpStaticBindingDelete m.isPolicyGlobalManager segmentID id]
    match m.server.Delete log m.isPolicyGlobalManager segmentID id with
    | some err => ⟨log1, Exec.ret (d, h.handleDeleteError "DhcpV4StaticBindingConfig" id err)⟩
    | none => ⟨log1, Exec.ret (d, none)⟩

/-- Helpers for the sample runs: the id is the last path component, tags are not used,
each list element becomes one option, `getOrGenerateID` takes a non-empty `nsx_id` after
one existence check, the converter keeps the display name and the resource type, and the
error handlers wrap the error. -/
def sampleBindingHelpers : BindingHelpers where
  getPolicyIDFromPath := fun path => ((stringsSplit path '/').getLast?).getD ""
  getPolicyTagsFromSchema := fun _ => []
  setPolicyTagsInSchema := fun d _ => d
  getPolicyDhcpOptions121 := fun items =>
    ⟨items.map (fun item => (toString item.fields.length, ""))⟩
  getPolicyDhcpGenericOptions := fun items => items.map (fun _ => ⟨none, []⟩)
  getPolicyDhcpOptions121FromStruct := fun o => o.StaticRoutes.map (fun _ => ⟨[]⟩)
  getPolicyDhcpGenericOptionsFromStruct := fun os => os.map (fun _ => ⟨[]⟩)
  getOrGenerateID := fun d m presenceChecker log =>
    let id := d.GetString "nsx_id"
    let segmentID := ((stringsSplit (d.GetString "segment_path") '/').getLast?).getD ""
    let call := ApiCall.dhcpStaticBindingGet m.isPolicyGlobalManager segmentID id
    if id = "" then ⟨[], "generated-id", none⟩
    else
      let checked := presenceChecker id (m.connector log) m.isPolicyGlobalManager
      match checked.2 with
      | some err => ⟨[call], "", some err⟩
      | none =>
        if checked.1 then
          ⟨[call], "", some (fmtErrorf ("Resource with id " ++ id ++ " already exists"))⟩
        else ⟨[call], id, none⟩
  convertToVapi := fun _ obj =>
    Except.ok ⟨[("display_name", Value.ofPtr obj.DisplayName),
      ("resource_type", Value.str obj.ResourceType)]⟩
  convertToGolang := fun sv =>
    Except.ok
      { DisplayName := some (match getAttr "display_name" sv.fields with
          | some (Value.str s) => s
          | _ => "")
        Description := none
        Tags := []
        Path := none
        Revision := some 0
        GatewayAddress := none
        HostName := none
        IpAddress := none
        LeaseTime := none
        MacAddress := none
        Options := none
        ResourceType := "DhcpV4StaticBindingConfig" }
  handleCreateError := fun _ _ err => some (logAPIError "Failed to create" err)
  handleReadError := fun d _ _ err => (d, some (logAPIError "Failed to read" err))
  handleUpdateError := fun _ _ err => some (logAPIError "Failed to update" err)
  handleDeleteError := fun _ _ err => some (logAPIError "Failed to delete" err)

/-- A platform that accepts every Patch and Delete and answers a Get with the body of the
latest Patch of that binding among the earlier calls, not-found when there is none. -/
def sampleServer : DhcpStaticBindingServer where
  Get := fun log isGlobalManager segmentID id =>
    match log.reverse.findSome? (fun c =>
      match c with
      | ApiCall.dhcpStaticBindingPatch g s i obj =>
        if g = isGlobalManager ∧ s = segmentID ∧ i = id then some obj else none
      | _ => none) with
    | some obj => Except.ok obj
    | none => Except.error ⟨"not found", true⟩
  Patch := fun _ _ _ _ _ => none
  Delete := fun _ _ _ _ => none

/-- A local manager in front of `sampleServer`. -/
def sampleBindingMeta : BindingMeta := ⟨false, sampleServer⟩

/-- Resource data of the binding "bind1" on segment "seg1". -/
def sampleBinding : ResourceData :=
  ⟨"bind1", [("segment_path", Value.str "/infra/segments/seg1"),
    ("display_name", Value.str "printer"), ("nsx_id", Value.str "bind1"),
    ("ip_address", Value.str "10.0.0.7"), ("mac_address", Value.str "00:11:22:33:44:55"),
    ("lease_time", Value.int 86400),
    ("dhcp_generic_option", Value.list [⟨[("code", "119")]⟩])]⟩

/-- The sample binding as the read leaves it after the sample platform has answered with
the patched object. -/
def sampleBindingAfterRead : ResourceData :=
  ⟨"bind1", [("segment_path", Value.str "/infra/segments/seg1"),
    ("display_name", Value.str "printer"), ("nsx_id", Value.str "bind1"),
    ("ip_address", Value.null), ("mac_address", Value.null), ("lease_time", Value.null),
    ("dhcp_generic_option", Value.list [⟨[("code", "119")]⟩]),
    ("description", Value.null), ("path", Value.null), ("revision", Value.int 0),
    ("gateway_address", Value.null), ("hostname", Value.null)]⟩

/-- The sample binding as the create leaves it: as after the read, with the "id" attribute
written by `SetId`. -/
def sampleBindingAfterCreate : ResourceData :=
  ⟨"bind1", [("segment_path", Value.str "/infra/segments/seg1"),
    ("display_name", Value.str "printer"), ("nsx_id", Value.str "bind1"),
    ("ip_address", Value.null), ("mac_address", Value.null), ("lease_time", Value.null),
    ("dhcp_generic_option", Value.list [⟨[("code", "119")]⟩]), ("id", Value.str "bind1"),
    ("description", Value.null), ("path", Value.null), ("revision", Value.int 0),
    ("gateway_address", Value.null), ("hostname", Value.null)]⟩

/-- The object the sample converter makes of the sample binding. -/
def sampleConverted : StructValue :=
  ⟨[("display_name", Value.str "printer"),
    ("resource_type", Value.str "DhcpV4StaticBindingConfig")]⟩

/-! # Lemmas and theorems -/

/-! ## Resource data attributes -/

theorem getAttr_setAttr_ne (k k' : String) (v : Value) (hk : k' ≠ k) :
    ∀ l : List (String × Value), getAttr k (setAttr k' v l) = getAttr k l := by
  intro l
  induction l with
  | nil => simp [setAttr, getAttr, hk]
  | cons a rest ih =>
    obtain ⟨ka, va⟩ := a
    by_cases h1 : ka = k'
    · subst h1; simp [setAttr, getAttr, hk]
    · by_cases h2 : ka = k
      · subst h2; simp [setAttr, getAttr, h1]
      · simp [setAttr, getAttr, h1, h2, ih]

theorem getAttr_setAttr_eq (k : String) (v : Value) :
    ∀ l : List (String × Value), getAttr k (setAttr k v l) = some v := by
  intro l
  induction l with
  | nil => simp [setAttr, getAttr]
  | cons a rest ih =>
    obtain ⟨ka, va⟩ := a
    by_cases h1 : ka = k <;> simp [setAttr, getAttr, h1, ih]

theorem getString_set_same (d : ResourceData) (k s : String) :
    (d.Set k (Value.str s)).GetString k = s := by
  simp [ResourceData.GetString, ResourceData.Set, getAttr_setAttr_eq]

theorem getString_set_other (d : ResourceData) (k k' : String) (v : Value) (hk : k' ≠ k) :
    (d.Set k' v).GetString k = d.GetString k := by
  simp [ResourceData.GetString, ResourceData.Set, getAttr_setAttr_ne k k' v hk]

theorem getString_setId (d : ResourceData) (v : String) : (d.SetId v).GetString "id" = v := by
  simp [ResourceData.GetString, ResourceData.SetId, getAttr_setAttr_eq]

/-! ## The SpoofGuard loop -/

theorem spoofGuardMatchLoop_eq (n : String) :
    ∀ (l perfectMatch prefixMatch : List SpoofGuardProfile),
      (∀ q ∈ l, q.DisplayName ≠ none) →
      spoofGuardMatchLoop n l perfectMatch prefixMatch =
        Exec.ret (perfectMatch ++ l.filter (hasDisplayName n),
          prefixMatch ++ l.filter (displayNameStartsWith n)) := by
  intro l
  induction l with
  | nil => intro pm xm _; simp [spoofGuardMatchLoop]
  | cons q rest ih =>
    intro pm xm hq
    have hq0 : q.DisplayName ≠ none := hq q (List.mem_cons_self _ _)
    have hrest : ∀ r ∈ rest, r.DisplayName ≠ none :=
      fun r hr => hq r (List.mem_cons_of_mem _ hr)
    cases hdn : q.DisplayName with
    | none => exact absurd hdn hq0
    | some dn =>
      rw [spoofGuardMatchLoop]
      simp only [hdn]
      rw [ih _ _ hrest]
      have e1 : hasDisplayName n q = decide (dn = n) := by simp [hasDisplayName, hdn]
      have e2 : displayNameStartsWith n q = stringsHasPrefix dn n := by
        simp [displayNameStartsWith, hdn]
      simp only [List.filter_cons, e1, e2]
      congr 2
      · by_cases h2 : dn = n <;> simp [h2]
      · cases stringsHasPrefix dn n <;> simp

theorem spoofGuardMatchLoop_panic (n : String) :
    ∀ (l perfectMatch prefixMatch : List SpoofGuardProfile),
      (∃ q ∈ l, q.DisplayName = none) →
      spoofGuardMatchLoop n l perfectMatch prefixMatch = Exec.panic := by
  intro l
  induction l with
  | nil => intro pm xm h; obtain ⟨q, hq, _⟩ := h; cases hq
  | cons q rest ih =>
    intro pm xm h
    cases hdn : q.DisplayName with
    | none => rw [spoofGuardMatchLoop]; simp only [hdn]
    | some dn =>
      rw [spoofGuardMatchLoop]
      simp only [hdn]
      apply ih
      obtain ⟨r, hr, hrn⟩ := h
      rcases List.mem_cons.mp hr with rfl | hr'
      · rw [hdn] at hrn; cases hrn
      · exact ⟨r, hr', hrn⟩

theorem hasDisplayName_startsWith (n : String) (p : SpoofGuardProfile)
    (h : hasDisplayName n p = true) : displayNameStartsWith n p = true := by
  have hp : p.DisplayName = some n := by simpa [hasDisplayName] using h
  simp [displayNameStartsWith, hp, stringsHasPrefix]

/-- The read by name on a local manager, once the list call has answered and no listed
profile lacks a display name: it is decided by the two filtered lists. -/
theorem spoofGuardRead_byName (h : Helpers) (d : ResourceData) (m : PolicyMeta)
    (n : String) (results : List SpoofGuardProfile)
    (hloc : m.isPolicyGlobalManager = false)
    (hid : d.GetString "id" = "") (hname : d.GetString "display_name" = n) (hn : n ≠ "")
    (hlist : m.spoofguardProfiles.List = Except.ok results)
    (hdn : ∀ q ∈ results, q.DisplayName ≠ none) :
    dataSourceNsxtPolicySpoofGuardProfileRead h d m =
      match spoofGuardResolve n (results.filter (hasDisplayName n))
          (results.filter (displayNameStartsWith n)) with
      | Except.error e => ⟨[ApiCall.spoofguardProfilesList], Exec.ret (d, some e)⟩
      | Except.ok obj => ⟨[ApiCall.spoofguardProfilesList], spoofGuardWrite d obj⟩ := by
  unfold dataSourceNsxtPolicySpoofGuardProfileRead
  simp only [hloc, hid, hname, hlist, spoofGuardMatchLoop_eq n results [] [] hdn]
  simp [hn]

/-! ## SpoofGuard profile lookup by name -/

/-- C1 (amended): on a local manager with an empty id and a non-empty display_name `n`,
when every listed profile carries a DisplayName, exactly one of them (`p`) has DisplayName
equal to `n` and `p` carries an Id, the read issues the one list call, succeeds and writes
the Id, DisplayName, Description and Path of `p` to the resource data, however many other
listed profiles have a DisplayName that starts with `n`. -/
theorem spoofGuardRead_exact_match_selected (h : Helpers) (d : ResourceData) (m : PolicyMeta)
    (n : String) (results : List SpoofGuardProfile) (p : SpoofGuardProfile) (id : String)
    (hloc : m.isPolicyGlobalManager = false)
    (hid : d.GetString "id" = "") (hname : d.GetString "display_name" = n) (hn : n ≠ "")
    (hlist : m.spoofguardProfiles.List = Except.ok results)
    (hdn : ∀ q ∈ results, q.DisplayName ≠ none)
    (hexact : results.filter (hasDisplayName n) = [p])
    (hpid : p.Id = some id) :
    dataSourceNsxtPolicySpoofGuardProfileRead h d m =
      ⟨[ApiCall.spoofguardProfilesList],
        Exec.ret ((((d.SetId id).Set "display_name" (Value.str n)).Set "description"
          (Value.ofPtr p.Description)).Set "path" (Value.ofPtr p.Path), none)⟩ := by
  have hp : p.DisplayName = some n := by
    have hmem : p ∈ results.filter (hasDisplayName n) := by rw [hexact]; exact List.mem_singleton_self p
    simpa [hasDisplayName] using (List.mem_filter.mp hmem).2
  rw [spoofGuardRead_byName h d m n results hloc hid hname hn hlist hdn, hexact]
  simp [spoofGuardResolve, spoofGuardWrite, hpid, hp, Value.ofPtr]

/-- Witness for C1: the list holds "web", "web-dmz" and "webserver"; the lookup of "web"
selects the first although all three names start with "web". -/
theorem spoofGuardRead_exact_match_selected_witness :
    dataSourceNsxtPolicySpoofGuardProfileRead sampleHelpers (byName "web")
        (localManager [sampleProfile "sg-2" "web-dmz", sampleProfile "sg-1" "web",
          sampleProfile "sg-3" "webserver"]) =
      ⟨[ApiCall.spoofguardProfilesList],
        Exec.ret (⟨"sg-1", [("display_name", Value.str "web"), ("id", Value.str "sg-1"),
          ("description", Value.str ""),
          ("path", Value.str "/infra/spoofguard-profiles/sg-1")]⟩, none)⟩ :=
  spoofGuardRead_exact_match_selected sampleHelpers (byName "web")
    (localManager [sampleProfile "sg-2" "web-dmz", sampleProfile "sg-1" "web",
      sampleProfile "sg-3" "webserver"]) "web" _ (sampleProfile "sg-1" "web") "sg-1"
    rfl (by decide) (by decide) (by decide) rfl (by decide) (by decide) rfl

/-- C1 as stated fails: exactly one listed profile is named "web", yet the read panics,
because another listed profile has a nil DisplayName that the loop dereferences. -/
theorem spoofGuardRead_exact_match_nil_name_panics :
    [unnamedProfile "sg-0", sampleProfile "sg-1" "web"].filter (hasDisplayName "web") =
        [sampleProfile "sg-1" "web"] ∧
      (dataSourceNsxtPolicySpoofGuardProfileRead sampleHelpers (byName "web")
        (localManager [unnamedProfile "sg-0", sampleProfile "sg-1" "web"])).out = Exec.panic := by
  decide

/-- C3 (amended): by name `n` on a local manager (empty id), when every listed profile
carries a DisplayName, ambiguity is an error that leaves the resource data as it was: two
or more listed profiles named exactly `n` give "Found multiple SpoofGuardProfiles with
name", and no profile named `n` with two or more names starting with `n` gives "Found
multiple SpoofGuardProfiles with name starting with". -/
theorem spoofGuardRead_ambiguous_is_error (h : Helpers) (d : ResourceData) (m : PolicyMeta)
    (n : String) (results : List SpoofGuardProfile)
    (hloc : m.isPolicyGlobalManager = false)
    (hid : d.GetString "id" = "") (hname : d.GetString "display_name" = n) (hn : n ≠ "")
    (hlist : m.spoofguardProfiles.List = Except.ok results)
    (hdn : ∀ q ∈ results, q.DisplayName ≠ none) :
    (2 ≤ (results.filter (hasDisplayName n)).length →
      dataSourceNsxtPolicySpoofGuardProfileRead h d m =
        ⟨[ApiCall.spoofguardProfilesList], Exec.ret (d, some (fmtErrorf
          ("Found multiple SpoofGuardProfiles with name '" ++ n ++ "'")))⟩) ∧
    (results.filter (hasDisplayName n) = [] →
      2 ≤ (results.filter (displayNameStartsWith n)).length →
      dataSourceNsxtPolicySpoofGuardProfileRead h d m =
        ⟨[ApiCall.spoofguardProfilesList], Exec.ret (d, some (fmtErrorf
          ("Found multiple SpoofGuardProfiles with name starting with '" ++ n ++ "'")))⟩) := by
  rw [spoofGuardRead_byName h d m n results hloc hid hname hn hlist hdn]
  constructor
  · intro h2
    cases hf : results.filter (hasDisplayName n) with
    | nil => rw [hf] at h2; simp at h2
    | cons a more =>
      rw [hf] at h2
      have hm : 0 < more.length := by simpa using h2
      simp [spoofGuardResolve, hm]
  · intro h0 h2
    rw [h0]
    cases hf : results.filter (displayNameStartsWith n) with
    | nil => rw [hf] at h2; simp at h2
    | cons a more =>
      rw [hf] at h2
      have hm : 0 < more.length := by simpa using h2
      simp [spoofGuardResolve, hm]

/-- Witness for C3: two profiles named "web" and, for the second part, "web-a" and
"web-b" under the name "web". -/
theorem spoofGuardRead_ambiguous_is_error_witness :
    dataSourceNsxtPolicySpoofGuardProfileRead sampleHelpers (byName "web")
        (localManager [sampleProfile "sg-1" "web", sampleProfile "sg-2" "web"]) =
      ⟨[ApiCall.spoofguardProfilesList], Exec.ret (byName "web", some (fmtErrorf
        "Found multiple SpoofGuardProfiles with name 'web'"))⟩ ∧
    dataSourceNsxtPolicySpoofGuardProfileRead sampleHelpers (byName "web")
        (localManager [sampleProfile "sg-1" "web-a", sampleProfile "sg-2" "web-b"]) =
      ⟨[ApiCall.spoofguardProfilesList], Exec.ret (byName "web", some (fmtErrorf
        "Found multiple SpoofGuardProfiles with name starting with 'web'"))⟩ :=
  ⟨(spoofGuardRead_ambiguous_is_error sampleHelpers (byName "web")
      (localManager [sampleProfile "sg-1" "web", sampleProfile "sg-2" "web"]) "web" _
      rfl (by decide) (by decide) (by decide) rfl (by decide)).1 (by decide),
   (spoofGuardRead_ambiguous_is_error sampleHelpers (byName "web")
      (localManager [sampleProfile "sg-1" "web-a", sampleProfile "sg-2" "web-b"]) "web" _
      rfl (by decide) (by decide) (by decide) rfl (by decide)).2 (by decide) (by decide)⟩

/-- C3 as stated fails: two listed profiles are named "web", yet the read does not return
an error; it panics on the listed profile whose DisplayName is nil. -/
theorem spoofGuardRead_ambiguous_nil_name_panics :
    2 ≤ ([sampleProfile "sg-1" "web", sampleProfile "sg-2" "web",
        unnamedProfile "sg-0"].filter (hasDisplayName "web")).length ∧
      (dataSourceNsxtPolicySpoofGuardProfileRead sampleHelpers (byName "web")
        (localManager [sampleProfile "sg-1" "web", sampleProfile "sg-2" "web",
          unnamedProfile "sg-0"])).out = Exec.panic := by
  decide

/-! ## Transport zone lookup by name -/

theorem transportZoneLoop_eq (n : String) :
    ∀ (l : List TransportZone) (obj : TransportZone) (found : Bool),
      transportZoneLoop n l obj found =
        match found, l.filter (zoneNameStartsWith n) with
        | true, [] => Except.ok (obj, true)
        | false, [] => Except.ok (obj, false)
        | false, [z] => Except.ok (z, true)
        | _, _ => Except.error
            (fmtErrorf ("Found multiple transport zones with name '" ++ n ++ "'\n")) := by
  intro l
  induction l with
  | nil => intro obj found; cases found <;> simp [transportZoneLoop]
  | cons z rest ih =>
    intro obj found
    rw [transportZoneLoop]
    by_cases hz : stringsHasPrefix z.DisplayName n = true
    · have hz' : zoneNameStartsWith n z = true := hz
      cases found
      · simp only [hz, if_true, List.filter_cons, hz', ih]
        cases List.filter (zoneNameStartsWith n) rest <;> simp
      · simp [hz, List.filter_cons, hz']
    · have hz' : ¬ zoneNameStartsWith n z = true := hz
      simp only [hz, List.filter_cons, hz', ih]
      simp

/-- The read by name once the list call has answered: decided by the zones whose name
starts with `n`. -/
theorem transportZoneRead_byName (d : ResourceData) (nsxClient : NetworkTransportApi)
    (n : String) (results : List TransportZone)
    (hid : d.GetString "id" = "") (hname : d.GetString "display_name" = n) (hn : n ≠ "")
    (hlist : nsxClient.ListTransportZones = Except.ok results) :
    dataSourceNsxtTransportZoneRead d nsxClient =
      match results.filter (zoneNameStartsWith n) with
      | [] => ⟨[ApiCall.listTransportZones], Exec.ret (d, some (fmtErrorf
          ("Transport zone '" ++ n ++ "' was not found\n")))⟩
      | [z] => ⟨[ApiCall.listTransportZones], Exec.ret (transportZoneWrite d z, none)⟩
      | _ => ⟨[ApiCall.listTransportZones], Exec.ret (d, some (fmtErrorf
          ("Found multiple transport zones with name '" ++ n ++ "'\n")))⟩ := by
  unfold dataSourceNsxtTransportZoneRead
  simp only [hid, hname, hlist, transportZoneLoop_eq]
  rcases hf : results.filter (zoneNameStartsWith n) with _ | ⟨a, _ | ⟨b, more⟩⟩ <;> simp [hn]

/-- What the transport zone write leaves in the resource data: the resource ID and the
"id" attribute are the zone's Id, and the four attributes are the zone's fields. -/
theorem transportZoneWrite_reads (d : ResourceData) (z : TransportZone) :
    (transportZoneWrite d z).Id = z.Id ∧
    (transportZoneWrite d z).GetString "id" = z.Id ∧
    (transportZoneWrite d z).GetString "display_name" = z.DisplayName ∧
    (transportZoneWrite d z).GetString "description" = z.Description ∧
    (transportZoneWrite d z).GetString "host_switch_name" = z.HostSwitchName ∧
    (transportZoneWrite d z).GetString "transport_type" = z.TransportType := by
  unfold transportZoneWrite
  refine ⟨rfl, ?_, ?_, ?_, ?_, ?_⟩
  · rw [getString_set_other _ _ _ _ (by decide), getString_set_other _ _ _ _ (by decide),
      getString_set_other _ _ _ _ (by decide), getString_set_other _ _ _ _ (by decide),
      getString_setId]
  · rw [getString_set_other _ _ _ _ (by decide), getString_set_other _ _ _ _ (by decide),
      getString_set_other _ _ _ _ (by decide), getString_set_same]
  · rw [getString_set_other _ _ _ _ (by decide), getString_set_other _ _ _ _ (by decide),
      getString_set_same]
  · rw [getString_set_other _ _ _ _ (by decide), getString_set_same]
  · rw [getString_set_same]

/-- C4: by name `n` (empty id, non-empty `n`, list call answered), the transport zone
read succeeds if and only if exactly one listed zone has a DisplayName starting with `n`,
and then it selects that zone: the resource data it leaves is `d` after SetId with the
zone's Id and Set of display_name, description, host_switch_name and transport_type with
the zone's fields, so that the resource ID and the id attribute read the zone's Id and the
four attributes read the zone's fields. With no such zone it returns the "was not found"
error and with two or more the "Found multiple transport zones" error, the resource data
untouched. -/
theorem transportZoneRead_succeeds_iff_one_starts_with (d : ResourceData)
    (nsxClient : NetworkTransportApi) (n : String) (results : List TransportZone)
    (hid : d.GetString "id" = "") (hname : d.GetString "display_name" = n) (hn : n ≠ "")
    (hlist : nsxClient.ListTransportZones = Except.ok results) :
    ((∃ d', (dataSourceNsxtTransportZoneRead d nsxClient).out = Exec.ret (d', none)) ↔
        (results.filter (zoneNameStartsWith n)).length = 1) ∧
    (∀ z, results.filter (zoneNameStartsWith n) = [z] →
      dataSourceNsxtTransportZoneRead d nsxClient =
        ⟨[ApiCall.listTransportZones], Exec.ret (transportZoneWrite d z, none)⟩) ∧
    (∀ z, results.filter (zoneNameStartsWith n) = [z] →
      ∃ d', dataSourceNsxtTransportZoneRead d nsxClient =
          ⟨[ApiCall.listTransportZones], Exec.ret (d', none)⟩ ∧
        d' = ((((d.SetId z.Id).Set "display_name" (Value.str z.DisplayName)).Set "description"
          (Value.str z.Description)).Set "host_switch_name" (Value.str z.HostSwitchName)).Set
            "transport_type" (Value.str z.TransportType) ∧
        d'.Id = z.Id ∧ d'.GetString "id" = z.Id ∧
        d'.GetString "display_name" = z.DisplayName ∧
        d'.GetString "description" = z.Description ∧
        d'.GetString "host_switch_name" = z.HostSwitchName ∧
        d'.GetString "transport_type" = z.TransportType) ∧
    (results.filter (zoneNameStartsWith n) = [] →
      dataSourceNsxtTransportZoneRead d nsxClient =
        ⟨[ApiCall.listTransportZones], Exec.ret (d, some (fmtErrorf
          ("Transport zone '" ++ n ++ "' was not found\n")))⟩) ∧
    (2 ≤ (results.filter (zoneNameStartsWith n)).length →
      dataSourceNsxtTransportZoneRead d nsxClient =
        ⟨[ApiCall.listTransportZones], Exec.ret (d, some (fmtErrorf
          ("Found multiple transport zones with name '" ++ n ++ "'\n")))⟩) := by
  rw [transportZoneRead_byName d nsxClient n results hid hname hn hlist]
  rcases hf : results.filter (zoneNameStartsWith n) with _ | ⟨a, _ | ⟨b, more⟩⟩
  · simp
  · refine ⟨by simp, by simp, ?_, by simp, by simp⟩
    intro z hz
    have hza : a = z := by simpa using hz
    subst hza
    exact ⟨transportZoneWrite d a, rfl, rfl, transportZoneWrite_reads d a⟩
  · simp

/-- Witness for C4: of "overlay-tz" and "vlan-tz" only the first starts with "overlay";
the resource data left holds its id "tz-1" as resource ID and as id attribute, and its
name, description, host switch name and transport type. -/
theorem transportZoneRead_succeeds_iff_one_starts_with_witness :
    ∃ d', dataSourceNsxtTransportZoneRead (byName "overlay")
          (sampleApi [sampleZone "tz-1" "overlay-tz", sampleZone "tz-2" "vlan-tz"]) =
        ⟨[ApiCall.listTransportZones], Exec.ret (d', none)⟩ ∧
      d' = ⟨"tz-1", [("display_name", Value.str "overlay-tz"), ("id", Value.str "tz-1"),
        ("description", Value.str ""), ("host_switch_name", Value.str "nsxvswitch"),
        ("transport_type", Value.str "OVERLAY")]⟩ ∧
      d'.Id = "tz-1" ∧ d'.GetString "id" = "tz-1" ∧
      d'.GetString "display_name" = "overlay-tz" ∧
      d'.GetString "description" = "" ∧
      d'.GetString "host_switch_name" = "nsxvswitch" ∧
      d'.GetString "transport_type" = "OVERLAY" :=
  (transportZoneRead_succeeds_iff_one_starts_with (byName "overlay")
    (sampleApi [sampleZone "tz-1" "overlay-tz", sampleZone "tz-2" "vlan-tz"]) "overlay" _
    (by decide) (by decide) (by decide) rfl).2.2.1 (sampleZone "tz-1" "overlay-tz") (by decide)

/-- C2, the code at the failing input: exactly one listed zone is named "tz" and a second
one is named "tz-overlay"; the read by name "tz" does not select the exact match but
returns the "Found multiple transport zones" error and leaves the resource data as it
was. -/
theorem transportZoneRead_exact_match_not_preferred :
    [sampleZone "tz-1" "tz", sampleZone "tz-2" "tz-overlay"].filter
        (fun z => decide (z.DisplayName = "tz")) = [sampleZone "tz-1" "tz"] ∧
      dataSourceNsxtTransportZoneRead (byName "tz")
          (sampleApi [sampleZone "tz-1" "tz", sampleZone "tz-2" "tz-overlay"]) =
        ⟨[ApiCall.listTransportZones], Exec.ret (byName "tz", some (fmtErrorf
          "Found multiple transport zones with name 'tz'\n"))⟩ := by
  decide

/-! ## Import-ID parsing -/

theorem stringsSplit_one (a : String) (ha : '/' ∉ a.toList) : stringsSplit a '/' = [a] := by
  have ha' : '/' ∉ a.data := ha
  have hs := List.splitOn_intercalate [a.data] '/' (by simp [ha']) (by simp)
  have hs' : a.data.splitOn '/' = [a.data] := by simpa [List.intercalate] using hs
  simp [stringsSplit, hs']

theorem stringsSplit_two (a b : String) (ha : '/' ∉ a.toList) (hb : '/' ∉ b.toList) :
    stringsSplit (a ++ "/" ++ b) '/' = [a, b] := by
  have ha' : '/' ∉ a.data := ha
  have hb' : '/' ∉ b.data := hb
  have hs := List.splitOn_intercalate [a.data, b.data] '/' (by simp [ha', hb']) (by simp)
  have hs' : (a.data ++ '/' :: b.data).splitOn '/' = [a.data, b.data] := by
    simpa [List.intercalate] using hs
  have hl : (a ++ "/" ++ b).data = a.data ++ '/' :: b.data := by
    rw [String.data_append, String.data_append]
    show (a.data ++ ['/']) ++ b.data = _
    simp
  simp [stringsSplit, hl, hs']

theorem stringsSplit_three (a b c : String) (ha : '/' ∉ a.toList) (hb : '/' ∉ b.toList)
    (hc : '/' ∉ c.toList) : stringsSplit (a ++ "/" ++ b ++ "/" ++ c) '/' = [a, b, c] := by
  have ha' : '/' ∉ a.data := ha
  have hb' : '/' ∉ b.data := hb
  have hc' : '/' ∉ c.data := hc
  have hs := List.splitOn_intercalate [a.data, b.data, c.data] '/'
    (by simp [ha', hb', hc']) (by simp)
  have hs' : (a.data ++ '/' :: (b.data ++ '/' :: c.data)).splitOn '/' =
      [a.data, b.data, c.data] := by
    simpa [List.intercalate] using hs
  have hl : (a ++ "/" ++ b ++ "/" ++ c).data = a.data ++ '/' :: (b.data ++ '/' :: c.data) := by
    rw [String.data_append, String.data_append, String.data_append, String.data_append]
    show (((a.data ++ ['/']) ++ b.data) ++ ['/']) ++ c.data = _
    simp
  simp [stringsSplit, hl, hs']

theorem length_pos_of_ne_empty (s : String) (h : s ≠ "") : s.length > 0 := by
  rcases s with ⟨l⟩
  cases l with
  | nil => exact absurd rfl h
  | cons a t => simp [String.length]

/-- C5: an import ID `S/B` of exactly two components (neither holds a slash) is accepted:
the resource id becomes `B` and segment_path becomes "/infra/segments/S" on a local
manager, "/global-infra/segments/S" on a global one. -/
theorem nsxtSegmentResourceImporter_two_components (d : ResourceData) (S B : String)
    (isGlobal : Bool) (hS : '/' ∉ S.toList) (hB : '/' ∉ B.toList)
    (hid : d.Id = S ++ "/" ++ B) :
    nsxtSegmentResourceImporter d isGlobal =
      ((d.SetId B).Set "segment_path" (Value.str
        ((if isGlobal then "/global-infra/segments/" else "/infra/segments/") ++ S)), none) := by
  unfold nsxtSegmentResourceImporter
  simp only [hid, stringsSplit_two S B hS hB]
  cases isGlobal <;> simp

/-- Witness for C5: "seg1/bind1" on a local manager. -/
theorem nsxtSegmentResourceImporter_two_components_witness :
    nsxtSegmentResourceImporter ⟨"seg1/bind1", []⟩ false =
      (⟨"bind1", [("id", Value.str "bind1"),
        ("segment_path", Value.str "/infra/segments/seg1")]⟩, none) :=
  nsxtSegmentResourceImporter_two_components ⟨"seg1/bind1", []⟩ "seg1" "bind1" false
    (by decide) (by decide) (by decide)

/-- C6: an import ID `G/S/B` of exactly three components (none holds a slash) with `G`
non-empty is accepted: the resource id becomes `B` and segment_path becomes
"/infra/tier-1s/G/segments/S" on a local manager, "/global-infra/tier-1s/G/segments/S" on
a global one. -/
theorem nsxtSegmentResourceImporter_three_components (d : ResourceData) (G S B : String)
    (isGlobal : Bool) (hG : '/' ∉ G.toList) (hS : '/' ∉ S.toList) (hB : '/' ∉ B.toList)
    (hne : G ≠ "") (hid : d.Id = G ++ "/" ++ S ++ "/" ++ B) :
    nsxtSegmentResourceImporter d isGlobal =
      ((d.SetId B).Set "segment_path" (Value.str
        ((if isGlobal then "/global-infra/tier-1s/" else "/infra/tier-1s/") ++ G ++
          "/segments/" ++ S)), none) := by
  unfold nsxtSegmentResourceImporter
  simp only [hid, stringsSplit_three G S B hG hS hB]
  have hlen : G.length > 0 := length_pos_of_ne_empty G hne
  cases isGlobal <;> simp [hlen, String.append_assoc]

/-- Witness for C6: "gw1/seg1/bind1" on a global manager. -/
theorem nsxtSegmentResourceImporter_three_components_witness :
    nsxtSegmentResourceImporter ⟨"gw1/seg1/bind1", []⟩ true =
      (⟨"bind1", [("id", Value.str "bind1"),
        ("segment_path", Value.str "/global-infra/tier-1s/gw1/segments/seg1")]⟩, none) :=
  nsxtSegmentResourceImporter_three_components ⟨"gw1/seg1/bind1", []⟩ "gw1" "seg1" "bind1" true
    (by decide) (by decide) (by decide) (by decide) (by decide)

/-- C7: an import ID without any slash (the empty string included) is refused with the
"Import format [gatewayID]/segmentID/bindingID expected" error, and the resource data is
returned as it was: the id is still the import ID and segment_path is not written. -/
theorem nsxtSegmentResourceImporter_no_slash (d : ResourceData) (isGlobal : Bool)
    (hid : '/' ∉ d.Id.toList) :
    nsxtSegmentResourceImporter d isGlobal =
      (d, some (fmtErrorf
        ("Import format [gatewayID]/segmentID/bindingID expected, got " ++ d.Id))) := by
  unfold nsxtSegmentResourceImporter
  simp [stringsSplit_one d.Id hid]

/-- Witness for C7: the empty import ID. -/
theorem nsxtSegmentResourceImporter_no_slash_witness :
    nsxtSegmentResourceImporter ⟨"", []⟩ false =
      (⟨"", []⟩, some (fmtErrorf
        "Import format [gatewayID]/segmentID/bindingID expected, got ")) :=
  nsxtSegmentResourceImporter_no_slash ⟨"", []⟩ false (by decide)

/-- C8, the code at the failing input: the four-component import ID "a/b/c/d" is not
refused; the importer returns no error, takes "b" as the resource id and writes
"/infra/segments/a" as segment_path, dropping "c" and "d". -/
theorem nsxtSegmentResourceImporter_four_components_accepted :
    stringsSplit "a/b/c/d" '/' = ["a", "b", "c", "d"] ∧
      nsxtSegmentResourceImporter ⟨"a/b/c/d", []⟩ false =
        (⟨"b", [("id", Value.str "b"), ("segment_path", Value.str "/infra/segments/a")]⟩,
          none) := by
  decide

/-! ## Lookup by id -/

/-- C10: resourceNsxtPolicyDhcpStaticBindingExistsOnSegment treats not-found as absence:
(true, nil) when the Get call succeeds, (false, nil) when it fails with a not-found error,
and (false, a non-nil error) for every other Get failure. -/
theorem existsOnSegment_not_found_is_absence (id segmentID : String)
    (connector : RestConnector) (isGlobalManager : Bool) :
    (∀ obj, (getPolicyDchpStaticBindingOnSegment id segmentID connector isGlobalManager).2 =
        Except.ok obj →
      resourceNsxtPolicyDhcpStaticBindingExistsOnSegment id segmentID connector isGlobalManager =
        (true, none)) ∧
    (∀ err, (getPolicyDchpStaticBindingOnSegment id segmentID connector isGlobalManager).2 =
        Except.error err → isNotFoundError err = true →
      resourceNsxtPolicyDhcpStaticBindingExistsOnSegment id segmentID connector isGlobalManager =
        (false, none)) ∧
    (∀ err, (getPolicyDchpStaticBindingOnSegment id segmentID connector isGlobalManager).2 =
        Except.error err → isNotFoundError err = false →
      ∃ e, resourceNsxtPolicyDhcpStaticBindingExistsOnSegment id segmentID connector
        isGlobalManager = (false, some e)) := by
  refine ⟨?_, ?_, ?_⟩
  · intro obj hg
    simp [resourceNsxtPolicyDhcpStaticBindingExistsOnSegment, hg]
  · intro err hg hnf
    simp [resourceNsxtPolicyDhcpStaticBindingExistsOnSegment, hg, hnf]
  · intro err hg hnf
    exact ⟨logAPIError "Error retrieving resource" err, by
      simp [resourceNsxtPolicyDhcpStaticBindingExistsOnSegment, hg, hnf]⟩

/-- Witness for C10: the binding "bind1" of "seg1" exists on the local manager, is absent
on the global one, and the failing segment "down" yields a non-nil error. -/
theorem existsOnSegment_not_found_is_absence_witness :
    resourceNsxtPolicyDhcpStaticBindingExistsOnSegment "bind1" "seg1" sampleConnector false =
        (true, none) ∧
      resourceNsxtPolicyDhcpStaticBindingExistsOnSegment "bind1" "seg1" sampleConnector true =
        (false, none) ∧
      ∃ e, resourceNsxtPolicyDhcpStaticBindingExistsOnSegment "bind1" "down" sampleConnector
        false = (false, some e) :=
  ⟨(existsOnSegment_not_found_is_absence "bind1" "seg1" sampleConnector false).1
      ⟨[("id", Value.str "bind1")]⟩ (by simp [getPolicyDchpStaticBindingOnSegment, sampleConnector]),
   (existsOnSegment_not_found_is_absence "bind1" "seg1" sampleConnector true).2.1
      ⟨"not found", true⟩ rfl (by decide),
   (existsOnSegment_not_found_is_absence "bind1" "down" sampleConnector false).2.2
      ⟨"internal server error", false⟩
      (by simp [getPolicyDchpStaticBindingOnSegment, sampleConnector]) (by decide)⟩

/-! ## Neither id nor name -/

/-- C12: when the id and display_name attributes are both the empty string, the SpoofGuard
read (local manager) and the transport zone read each return their "Error obtaining ... ID
or name during read" error, issue no Get or List call and leave the resource data as it
was. -/
theorem read_without_id_or_name (h : Helpers) (d : ResourceData) (m : PolicyMeta)
    (nsxClient : NetworkTransportApi)
    (hloc : m.isPolicyGlobalManager = false)
    (hid : d.GetString "id" = "") (hname : d.GetString "display_name" = "") :
    dataSourceNsxtPolicySpoofGuardProfileRead h d m =
        ⟨[], Exec.ret (d, some (fmtErrorf
          "Error obtaining SpoofGuardProfile ID or name during read"))⟩ ∧
      dataSourceNsxtTransportZoneRead d nsxClient =
        ⟨[], Exec.ret (d, some (fmtErrorf
          "Error obtaining transport zone ID or name during read"))⟩ := by
  constructor
  · simp [dataSourceNsxtPolicySpoofGuardProfileRead, hloc, hid, hname]
  · simp [dataSourceNsxtTransportZoneRead, hid, hname]

/-- Witness for C12: resource data without any attribute. -/
theorem read_without_id_or_name_witness :
    dataSourceNsxtPolicySpoofGuardProfileRead sampleHelpers ⟨"", []⟩
        (localManager [sampleProfile "sg-1" "web"]) =
        ⟨[], Exec.ret (⟨"", []⟩, some (fmtErrorf
          "Error obtaining SpoofGuardProfile ID or name during read"))⟩ ∧
      dataSourceNsxtTransportZoneRead ⟨"", []⟩ (sampleApi [sampleZone "tz-1" "overlay"]) =
        ⟨[], Exec.ret (⟨"", []⟩, some (fmtErrorf
          "Error obtaining transport zone ID or name during read"))⟩ :=
  read_without_id_or_name sampleHelpers ⟨"", []⟩ (localManager [sampleProfile "sg-1" "web"])
    (sampleApi [sampleZone "tz-1" "overlay"]) rfl (by decide) (by decide)

/-! ## Full characterisation of the SpoofGuard lookup by name -/

theorem filter_hasDisplayName_nil_of_startsWith_nil (n : String)
    (results : List SpoofGuardProfile)
    (h0 : results.filter (displayNameStartsWith n) = []) :
    results.filter (hasDisplayName n) = [] := by
  rw [List.filter_eq_nil_iff] at h0 ⊢
  intro a ha hq
  exact h0 a ha (hasDisplayName_startsWith n a hq)

theorem spoofGuardWrite_succeeds_iff (d : ResourceData) (p : SpoofGuardProfile) :
    (∃ d', spoofGuardWrite d p = Exec.ret (d', none)) ↔ p.Id ≠ none := by
  cases hid : p.Id <;> simp [spoofGuardWrite, hid]

/-- C14 (amended): for every listed result set whose profiles all carry a DisplayName and
every non-empty name `n` (empty id, local manager, list call answered), the read succeeds
if and only if the profile picked carries an Id and is either the one listed profile whose
DisplayName equals `n`, or, no listed DisplayName being equal to `n`, the one whose
DisplayName starts with `n`; on success the profile written is a listed one whose
DisplayName starts with `n`, and when no listed DisplayName starts with `n` the result is
the "was not found" error. -/
theorem spoofGuardRead_byName_characterisation (h : Helpers) (d : ResourceData)
    (m : PolicyMeta) (n : String) (results : List SpoofGuardProfile)
    (hloc : m.isPolicyGlobalManager = false)
    (hid : d.GetString "id" = "") (hname : d.GetString "display_name" = n) (hn : n ≠ "")
    (hlist : m.spoofguardProfiles.List = Except.ok results)
    (hdn : ∀ q ∈ results, q.DisplayName ≠ none) :
    ((∃ d', (dataSourceNsxtPolicySpoofGuardProfileRead h d m).out = Exec.ret (d', none)) ↔
      ∃ p, p.Id ≠ none ∧ (results.filter (hasDisplayName n) = [p] ∨
        (results.filter (hasDisplayName n) = [] ∧
          results.filter (displayNameStartsWith n) = [p]))) ∧
    (∀ d', (dataSourceNsxtPolicySpoofGuardProfileRead h d m).out = Exec.ret (d', none) →
      ∃ p, p ∈ results ∧ displayNameStartsWith n p = true ∧
        spoofGuardWrite d p = Exec.ret (d', none)) ∧
    (results.filter (displayNameStartsWith n) = [] →
      dataSourceNsxtPolicySpoofGuardProfileRead h d m =
        ⟨[ApiCall.spoofguardProfilesList], Exec.ret (d, some (fmtErrorf
          ("SpoofGuardProfile with name '" ++ n ++ "' was not found")))⟩) := by
  rw [spoofGuardRead_byName h d m n results hloc hid hname hn hlist hdn]
  have hsub : ∀ p, p ∈ results.filter (hasDisplayName n) →
      p ∈ results ∧ displayNameStartsWith n p = true := fun p hp =>
    ⟨(List.mem_filter.mp hp).1, hasDisplayName_startsWith n p (List.mem_filter.mp hp).2⟩
  have hsub2 : ∀ p, p ∈ results.filter (displayNameStartsWith n) →
      p ∈ results ∧ displayNameStartsWith n p = true := fun p hp =>
    ⟨(List.mem_filter.mp hp).1, (List.mem_filter.mp hp).2⟩
  have hnil := filter_hasDisplayName_nil_of_startsWith_nil n results
  rcases he : results.filter (hasDisplayName n) with _ | ⟨a, _ | ⟨a2, more⟩⟩
  · rcases hx : results.filter (displayNameStartsWith n) with _ | ⟨b, _ | ⟨b2, more2⟩⟩
    · simp [spoofGuardResolve]
    · rw [hx] at hsub2
      refine ⟨?_, ?_, ?_⟩
      · simp only [spoofGuardResolve]
        simp [spoofGuardWrite_succeeds_iff]
      · intro d' hd'
        exact ⟨b, (hsub2 b (List.mem_singleton_self b)).1,
          (hsub2 b (List.mem_singleton_self b)).2, by simpa [spoofGuardResolve] using hd'⟩
      · intro hcontra; cases hcontra
    · simp [spoofGuardResolve]
  · rw [he] at hsub
    refine ⟨?_, ?_, ?_⟩
    · simp only [spoofGuardResolve]
      simp [spoofGuardWrite_succeeds_iff]
    · intro d' hd'
      exact ⟨a, (hsub a (List.mem_singleton_self a)).1,
        (hsub a (List.mem_singleton_self a)).2, by simpa [spoofGuardResolve] using hd'⟩
    · intro hcontra
      have := hnil hcontra
      rw [he] at this
      cases this
  · refine ⟨?_, ?_, ?_⟩
    · simp [spoofGuardResolve]
    · simp [spoofGuardResolve]
    · intro hcontra
      have := hnil hcontra
      rw [he] at this
      cases this

/-- Witness for C14: no profile is named "web" and only "web-dmz" starts with it, so the
lookup of "web" succeeds. -/
theorem spoofGuardRead_byName_characterisation_witness :
    ∃ d', (dataSourceNsxtPolicySpoofGuardProfileRead sampleHelpers (byName "web")
      (localManager [sampleProfile "sg-1" "db", sampleProfile "sg-2" "web-dmz"])).out =
        Exec.ret (d', none) :=
  (spoofGuardRead_byName_characterisation sampleHelpers (byName "web")
    (localManager [sampleProfile "sg-1" "db", sampleProfile "sg-2" "web-dmz"]) "web" _
    rfl (by decide) (by decide) (by decide) rfl (by decide)).1.mpr
    ⟨sampleProfile "sg-2" "web-dmz", by decide, Or.inr ⟨by decide, by decide⟩⟩

/-- C14 as stated fails: with "web-dmz" the only listed name starting with "web" and no
listed name equal to it, the read does not succeed, and with no listed name starting with
"db" the result is not the "was not found" error; in both runs the read panics on the
listed profile whose DisplayName is nil. -/
theorem spoofGuardRead_byName_characterisation_nil_name_panics :
    ([sampleProfile "sg-2" "web-dmz", unnamedProfile "sg-0"].filter (hasDisplayName "web") = [] ∧
      [sampleProfile "sg-2" "web-dmz", unnamedProfile "sg-0"].filter
        (displayNameStartsWith "web") = [sampleProfile "sg-2" "web-dmz"] ∧
      (dataSourceNsxtPolicySpoofGuardProfileRead sampleHelpers (byName "web")
        (localManager [sampleProfile "sg-2" "web-dmz", unnamedProfile "sg-0"])).out =
          Exec.panic) ∧
    ([sampleProfile "sg-2" "web-dmz", unnamedProfile "sg-0"].filter
        (displayNameStartsWith "db") = [] ∧
      (dataSourceNsxtPolicySpoofGuardProfileRead sampleHelpers (byName "db")
        (localManager [sampleProfile "sg-2" "web-dmz", unnamedProfile "sg-0"])).out =
          Exec.panic) := by
  decide

/-! ## DHCP options and the object sent by the binding resource -/

theorem length_pos_iff_ne_nil {α : Type} (l : List α) : l.length > 0 ↔ l ≠ [] := by
  cases l <;> simp

/-- C15: getDhcpOptsFromSchema returns nil if and only if the dhcp_option_121 list and
the dhcp_generic_option list are both empty; otherwise it returns a DhcpV4Options whose
Option121 is non-nil exactly when dhcp_option_121 is non-empty (then it is what
getPolicyDhcpOptions121 built) and whose Others is what getPolicyDhcpGenericOptions built
when dhcp_generic_option is non-empty and is left empty otherwise. getPolicyDhcpGenericOptions
belongs to another file; when it yields at least one option for every non-empty list,
Others is non-empty exactly when dhcp_generic_option is. -/
theorem getDhcpOptsFromSchema_nil_iff_both_empty (h : BindingHelpers) (d : ResourceData) :
    (getDhcpOptsFromSchema h d = none ↔
      d.GetList "dhcp_option_121" = [] ∧ d.GetList "dhcp_generic_option" = []) ∧
    (∀ o, getDhcpOptsFromSchema h d = some o →
      (o.Option121 ≠ none ↔ d.GetList "dhcp_option_121" ≠ []) ∧
      (d.GetList "dhcp_option_121" ≠ [] →
        o.Option121 = some (h.getPolicyDhcpOptions121 (d.GetList "dhcp_option_121"))) ∧
      (d.GetList "dhcp_generic_option" ≠ [] →
        o.Others = h.getPolicyDhcpGenericOptions (d.GetList "dhcp_generic_option")) ∧
      (d.GetList "dhcp_generic_option" = [] → o.Others = []) ∧
      ((∀ l, l ≠ [] → h.getPolicyDhcpGenericOptions l ≠ []) →
        (o.Others ≠ [] ↔ d.GetList "dhcp_generic_option" ≠ []))) := by
  unfold getDhcpOptsFromSchema
  cases h1 : d.GetList "dhcp_option_121" with
  | nil =>
    cases h2 : d.GetList "dhcp_generic_option" with
    | nil => simp
    | cons b bs =>
      simp only [List.length_nil, List.length_cons]
      refine ⟨by simp, ?_⟩
      intro o ho
      simp at ho
      subst ho
      refine ⟨by simp, by simp, by simp, by simp, ?_⟩
      intro hgen
      have hb := hgen (b :: bs) (by simp)
      simp [hb]
  | cons a as =>
    cases h2 : d.GetList "dhcp_generic_option" with
    | nil =>
      simp only [List.length_nil, List.length_cons]
      refine ⟨by simp, ?_⟩
      intro o ho
      simp at ho
      subst ho
      simp
    | cons b bs =>
      simp only [List.length_cons]
      refine ⟨by simp, ?_⟩
      intro o ho
      simp at ho
      subst ho
      refine ⟨by simp, by simp, by simp, by simp, ?_⟩
      intro hgen
      have hb := hgen (b :: bs) (by simp)
      simp [hb]

/-- Witness for C15: the sample binding has one generic option and no option 121, so the
result is not nil, Option121 is nil and Others holds one option. -/
theorem getDhcpOptsFromSchema_nil_iff_both_empty_witness :
    getDhcpOptsFromSchema sampleBindingHelpers sampleBinding = some ⟨none, [⟨none, []⟩]⟩ ∧
      (([⟨none, []⟩] : List GenericDhcpOption) ≠ [] ↔
        sampleBinding.GetList "dhcp_generic_option" ≠ []) :=
  ⟨by decide,
    ((getDhcpOptsFromSchema_nil_iff_both_empty sampleBindingHelpers sampleBinding).2
      ⟨none, [⟨none, []⟩]⟩ (by decide)).2.2.2.2
      (fun l hl => by cases l with
        | nil => exact absurd rfl hl
        | cons a t => simp [sampleBindingHelpers])⟩

/-- C13: the DhcpV4StaticBindingConfig that policyDhcpV4StaticBindingConvertAndPatch
builds and hands to the converter has GatewayAddress set if and only if gateway_address
is a non-empty string (and then to that string), has DisplayName, Description, HostName,
IpAddress, LeaseTime and MacAddress always set to the attribute values, and has
ResourceType "DhcpV4StaticBindingConfig"; when the conversion succeeds the one call
issued is the Patch of the converted object. -/
theorem convertAndPatch_gateway_address_iff_non_empty (h : BindingHelpers) (d : ResourceData)
    (segmentID id : String) (m : BindingMeta) (log : List ApiCall) :
    ((dhcpV4StaticBindingConfigFromSchema h d).GatewayAddress ≠ none ↔
        d.GetString "gateway_address" ≠ "") ∧
    (d.GetString "gateway_address" ≠ "" →
      (dhcpV4StaticBindingConfigFromSchema h d).GatewayAddress =
        some (d.GetString "gateway_address")) ∧
    (dhcpV4StaticBindingConfigFromSchema h d).DisplayName = some (d.GetString "display_name") ∧
    (dhcpV4StaticBindingConfigFromSchema h d).Description = some (d.GetString "description") ∧
    (dhcpV4StaticBindingConfigFromSchema h d).HostName = some (d.GetString "hostname") ∧
    (dhcpV4StaticBindingConfigFromSchema h d).IpAddress = some (d.GetString "ip_address") ∧
    (dhcpV4StaticBindingConfigFromSchema h d).LeaseTime = some (d.GetInt "lease_time") ∧
    (dhcpV4StaticBindingConfigFromSchema h d).MacAddress = some (d.GetString "mac_address") ∧
    (dhcpV4StaticBindingConfigFromSchema h d).ResourceType = "DhcpV4StaticBindingConfig" ∧
    (∀ convObj, h.convertToVapi m.isPolicyGlobalManager
        (dhcpV4StaticBindingConfigFromSchema h d) = Except.ok convObj →
      policyDhcpV4StaticBindingConvertAndPatch h d segmentID id m log =
        (log ++ [ApiCall.dhcpStaticBindingPatch m.isPolicyGlobalManager segmentID id convObj],
          m.server.Patch log m.isPolicyGlobalManager segmentID id convObj)) := by
  have hlen : (d.GetString "gateway_address").length > 0 ↔ d.GetString "gateway_address" ≠ "" := by
    constructor
    · intro hpos hemp
      rw [hemp] at hpos
      exact absurd hpos (by decide)
    · exact length_pos_of_ne_empty _
  by_cases hg : d.GetString "gateway_address" = ""
  · have hl : ¬ (d.GetString "gateway_address").length > 0 := fun hp => (hlen.mp hp) hg
    refine ⟨?_, ?_, ?_, ?_, ?_, ?_, ?_, ?_, ?_, ?_⟩ <;>
      first
        | (intro convObj hc
           simp only [policyDhcpV4StaticBindingConvertAndPatch, hc])
        | simp [dhcpV4StaticBindingConfigFromSchema, hl, hg]
  · have hl : (d.GetString "gateway_address").length > 0 := hlen.mpr hg
    refine ⟨?_, ?_, ?_, ?_, ?_, ?_, ?_, ?_, ?_, ?_⟩ <;>
      first
        | (intro convObj hc
           simp only [policyDhcpV4StaticBindingConvertAndPatch, hc])
        | simp [dhcpV4StaticBindingConfigFromSchema, hl, hg]

/-- Witness for C13: the sample binding has no gateway_address, so none is sent, and the
Patch carries the converted object. -/
theorem convertAndPatch_gateway_address_iff_non_empty_witness :
    (dhcpV4StaticBindingConfigFromSchema sampleBindingHelpers sampleBinding).GatewayAddress =
        none ∧
      policyDhcpV4StaticBindingConvertAndPatch sampleBindingHelpers sampleBinding "seg1" "bind1"
          sampleBindingMeta [] =
        ([ApiCall.dhcpStaticBindingPatch false "seg1" "bind1"
          ⟨[("display_name", Value.str "printer"),
            ("resource_type", Value.str "DhcpV4StaticBindingConfig")]⟩], none) :=
  ⟨by decide,
    (convertAndPatch_gateway_address_iff_non_empty sampleBindingHelpers sampleBinding "seg1"
      "bind1" sampleBindingMeta []).2.2.2.2.2.2.2.2.2 _ rfl⟩

/-! ## REST calls of the binding operations -/

theorem bindingRead_calls (h : BindingHelpers) (d : ResourceData) (m : BindingMeta)
    (log : List ApiCall) (hid : d.Id ≠ "") :
    (resourceNsxtPolicyDhcpV4StaticBindingRead h d m log).calls =
      log ++ [ApiCall.dhcpStaticBindingGet m.isPolicyGlobalManager
        (h.getPolicyIDFromPath (d.GetString "segment_path")) d.Id] := by
  unfold resourceNsxtPolicyDhcpV4StaticBindingRead
  simp only [hid, if_false]
  cases hg : m.server.Get log m.isPolicyGlobalManager
      (h.getPolicyIDFromPath (d.GetString "segment_path")) d.Id with
  | error err => simp
  | ok dhcpObj =>
    cases hc : h.convertToGolang dhcpObj with
    | error convErr => simp [hc]
    | ok obj =>
      by_cases hr : obj.ResourceType = "DhcpV4StaticBindingConfig" <;> simp [hc, hr]

theorem bindingRead_success_id (h : BindingHelpers) (d : ResourceData) (m : BindingMeta)
    (log : List ApiCall) (d' : ResourceData)
    (hs : (resourceNsxtPolicyDhcpV4StaticBindingRead h d m log).out = Exec.ret (d', none)) :
    d.Id ≠ "" := by
  intro hid
  simp [resourceNsxtPolicyDhcpV4StaticBindingRead, hid] at hs

theorem getString_segment_path_set_nsx_id (d : ResourceData) (id : String) (v : Value) :
    ((d.SetId id).Set "nsx_id" v).GetString "segment_path" = d.GetString "segment_path" := by
  simp [ResourceData.GetString, ResourceData.Set, ResourceData.SetId,
    getAttr_setAttr_ne "segment_path" "nsx_id" v (by decide),
    getAttr_setAttr_ne "segment_path" "id" (Value.str id) (by decide)]

theorem convertAndPatch_success (h : BindingHelpers) (d : ResourceData)
    (segmentID id : String) (m : BindingMeta) (log : List ApiCall)
    (hs : (policyDhcpV4StaticBindingConvertAndPatch h d segmentID id m log).2 = none) :
    ∃ convObj, (policyDhcpV4StaticBindingConvertAndPatch h d segmentID id m log).1 =
      log ++ [ApiCall.dhcpStaticBindingPatch m.isPolicyGlobalManager segmentID id convObj] := by
  unfold policyDhcpV4StaticBindingConvertAndPatch at hs ⊢
  cases hc : h.convertToVapi m.isPolicyGlobalManager (dhcpV4StaticBindingConfigFromSchema h d) with
  | error e => simp [hc] at hs
  | ok convObj => exact ⟨convObj, by simp [hc]⟩

/-- C11 (amended): on every successful run the read issues exactly one call to the REST
client (the Get) and the delete exactly one (the Delete); the update issues two, the Patch
and then the Get by which it reads the binding back, and the create issues that Patch and
Get after the calls made by getOrGenerateID. handleCreateError and handleUpdateError
belong to another file and are assumed never to turn a failed Patch into a nil error. -/
theorem binding_operations_rest_calls (h : BindingHelpers) (d : ResourceData)
    (m : BindingMeta)
    (hC : ∀ t i e, h.handleCreateError t i e ≠ none)
    (hU : ∀ t i e, h.handleUpdateError t i e ≠ none) :
    (∀ d', (resourceNsxtPolicyDhcpV4StaticBindingRead h d m []).out = Exec.ret (d', none) →
      (resourceNsxtPolicyDhcpV4StaticBindingRead h d m []).calls =
        [ApiCall.dhcpStaticBindingGet m.isPolicyGlobalManager
          (h.getPolicyIDFromPath (d.GetString "segment_path")) d.Id]) ∧
    (∀ d', (resourceNsxtPolicyDhcpV4StaticBindingDelete h d m []).out = Exec.ret (d', none) →
      (resourceNsxtPolicyDhcpV4StaticBindingDelete h d m []).calls =
        [ApiCall.dhcpStaticBindingDelete m.isPolicyGlobalManager
          (h.getPolicyIDFromPath (d.GetString "segment_path")) d.Id]) ∧
    (∀ d', (resourceNsxtPolicyDhcpV4StaticBindingUpdate h d m []).out = Exec.ret (d', none) →
      ∃ convObj, (resourceNsxtPolicyDhcpV4StaticBindingUpdate h d m []).calls =
        [ApiCall.dhcpStaticBindingPatch m.isPolicyGlobalManager
            (h.getPolicyIDFromPath (d.GetString "segment_path")) d.Id convObj,
          ApiCall.dhcpStaticBindingGet m.isPolicyGlobalManager
            (h.getPolicyIDFromPath (d.GetString "segment_path")) d.Id]) ∧
    (∀ d', (resourceNsxtPolicyDhcpV4StaticBindingCreate h d m []).out = Exec.ret (d', none) →
      ∃ convObj, (resourceNsxtPolicyDhcpV4StaticBindingCreate h d m []).calls =
        (h.getOrGenerateID d m (resourceNsxtPolicyDhcpStaticBindingExists
            (h.getPolicyIDFromPath (d.GetString "segment_path"))) []).calls ++
          [ApiCall.dhcpStaticBindingPatch m.isPolicyGlobalManager
              (h.getPolicyIDFromPath (d.GetString "segment_path"))
              (h.getOrGenerateID d m (resourceNsxtPolicyDhcpStaticBindingExists
                (h.getPolicyIDFromPath (d.GetString "segment_path"))) []).id convObj,
            ApiCall.dhcpStaticBindingGet m.isPolicyGlobalManager
              (h.getPolicyIDFromPath (d.GetString "segment_path"))
              (h.getOrGenerateID d m (resourceNsxtPolicyDhcpStaticBindingExists
                (h.getPolicyIDFromPath (d.GetString "segment_path"))) []).id]) := by
  refine ⟨?_, ?_, ?_, ?_⟩
  · intro d' hs
    have hid := bindingRead_success_id h d m [] d' hs
    simpa using bindingRead_calls h d m [] hid
  · intro d' hs
    by_cases hid : d.Id = ""
    · simp [resourceNsxtPolicyDhcpV4StaticBindingDelete, hid] at hs
    · unfold resourceNsxtPolicyDhcpV4StaticBindingDelete
      simp only [hid, if_false]
      cases m.server.Delete [] m.isPolicyGlobalManager
          (h.getPolicyIDFromPath (d.GetString "segment_path")) d.Id <;> simp
  · intro d' hs
    by_cases hid : d.Id = ""
    · simp [resourceNsxtPolicyDhcpV4StaticBindingUpdate, hid] at hs
    · unfold resourceNsxtPolicyDhcpV4StaticBindingUpdate at hs ⊢
      simp only [hid, if_false] at hs ⊢
      cases hp : (policyDhcpV4StaticBindingConvertAndPatch h d
          (h.getPolicyIDFromPath (d.GetString "segment_path")) d.Id m []).2 with
      | some err =>
        simp only [hp] at hs
        have := hU "DhcpV4StaticBindingConfig" d.Id err
        simp at hs
        exact absurd hs.2 this
      | none =>
        obtain ⟨convObj, hcalls⟩ := convertAndPatch_success h d _ _ m [] hp
        refine ⟨convObj, ?_⟩
        simp only [hp]
        rw [bindingRead_calls h d m _ hid, hcalls]
        simp
  · intro d' hs
    unfold resourceNsxtPolicyDhcpV4StaticBindingCreate at hs ⊢
    cases hg : (h.getOrGenerateID d m (resourceNsxtPolicyDhcpStaticBindingExists
        (h.getPolicyIDFromPath (d.GetString "segment_path"))) []).err with
    | some err => simp [hg] at hs
    | none =>
      simp only [hg] at hs ⊢
      cases hp : (policyDhcpV4StaticBindingConvertAndPatch h d
          (h.getPolicyIDFromPath (d.GetString "segment_path"))
          (h.getOrGenerateID d m (resourceNsxtPolicyDhcpStaticBindingExists
            (h.getPolicyIDFromPath (d.GetString "segment_path"))) []).id m
          ([] ++ (h.getOrGenerateID d m (resourceNsxtPolicyDhcpStaticBindingExists
            (h.getPolicyIDFromPath (d.GetString "segment_path"))) []).calls)).2 with
      | some err =>
        simp only [hp] at hs
        have := hC "DhcpV4StaticBindingConfig" (h.getOrGenerateID d m
          (resourceNsxtPolicyDhcpStaticBindingExists
            (h.getPolicyIDFromPath (d.GetString "segment_path"))) []).id err
        simp at hs
        exact absurd hs.2 this
      | none =>
        obtain ⟨convObj, hcalls⟩ := convertAndPatch_success h d _ _ m _ hp
        simp only [hp] at hs ⊢
        have hid := bindingRead_success_id h _ m _ d' hs
        refine ⟨convObj, ?_⟩
        rw [bindingRead_calls h _ m _ hid, hcalls, getString_segment_path_set_nsx_id]
        simp [ResourceData.Id, ResourceData.Set, ResourceData.SetId]

/-- Witness for C11: the update of the sample binding succeeds with the Patch and the Get
of the read-back, and its delete succeeds with the one Delete. -/
theorem binding_operations_rest_calls_witness :
    (∃ convObj, (resourceNsxtPolicyDhcpV4StaticBindingUpdate sampleBindingHelpers sampleBinding
        sampleBindingMeta []).calls =
      [ApiCall.dhcpStaticBindingPatch false "seg1" "bind1" convObj,
        ApiCall.dhcpStaticBindingGet false "seg1" "bind1"]) ∧
    (resourceNsxtPolicyDhcpV4StaticBindingDelete sampleBindingHelpers sampleBinding
        sampleBindingMeta []).calls = [ApiCall.dhcpStaticBindingDelete false "seg1" "bind1"] :=
  ⟨(binding_operations_rest_calls sampleBindingHelpers sampleBinding sampleBindingMeta
      (fun _ _ _ => by simp [sampleBindingHelpers])
      (fun _ _ _ => by simp [sampleBindingHelpers])).2.2.1 sampleBindingAfterRead (by decide),
   (binding_operations_rest_calls sampleBindingHelpers sampleBinding sampleBindingMeta
      (fun _ _ _ => by simp [sampleBindingHelpers])
      (fun _ _ _ => by simp [sampleBindingHelpers])).2.1 sampleBinding (by decide)⟩

/-- C11 as stated fails: the update of the sample binding runs successfully and issues two
calls to the REST client, the Patch and the Get of the read-back; its create, with a
getOrGenerateID that checks once whether the id is taken, runs successfully and issues
three, the Get of that check before those two. -/
theorem bindingUpdate_and_create_issue_several_calls :
    resourceNsxtPolicyDhcpV4StaticBindingUpdate sampleBindingHelpers sampleBinding
        sampleBindingMeta [] =
      ⟨[ApiCall.dhcpStaticBindingPatch false "seg1" "bind1" sampleConverted,
          ApiCall.dhcpStaticBindingGet false "seg1" "bind1"],
        Exec.ret (sampleBindingAfterRead, none)⟩ ∧
    resourceNsxtPolicyDhcpV4StaticBindingCreate sampleBindingHelpers sampleBinding
        sampleBindingMeta [] =
      ⟨[ApiCall.dhcpStaticBindingGet false "seg1" "bind1",
          ApiCall.dhcpStaticBindingPatch false "seg1" "bind1" sampleConverted,
          ApiCall.dhcpStaticBindingGet false "seg1" "bind1"],
        Exec.ret (sampleBindingAfterCreate, none)⟩ := by
  decide

end Nsxt
